import Mathlib

/-!
Actor policy parameters: `chain/actors/policy/policy.go`

A shallow embedding of the Go package `policy`.  The package reads and writes
package-level variables of the actor packages (`miner0`, `miner2`, `miner3`,
`power0`, `builtin2`, `builtin3`, `verifreg0`, `verifreg2`, `verifreg3`); those
variables form the `State` below.  Constants and functions that the file uses
but that are declared in other packages (`abi`, `network`, `actors`, the
`market` packages, ...) are collected in `Externals` and are parameters of the
embedding.

Go maps are reference values: a variable of map type holds a reference to a map
object, and assigning one map variable to another makes both refer to the same
object.  `SetSupportedProofTypes` relies on this, so the state carries a store
of map objects (`maps`) and the proof-type variables hold references into it.

The map variables are initialised with map literals by the packages that
declare them, and this file only ever assigns a newly made map to them, so a
reference always denotes a map object (no variable is nil).

Integers of type `int64` (`abi.ChainEpoch`) are integers of Lean with an explicit
wrap-around (`wrapInt64`) at every arithmetic result and conversion; Go's `int`
is taken to be 64 bits wide.  Go panics are modelled by `Except Panic _`.
-/

namespace Policy

/-! ## Go values -/

/-- Value of an integer expression of Go type `int64` (two's complement
wrap-around of the exact result). -/
def wrapInt64 (x : Int) : Int :=
  (x + 9223372036854775808) % 18446744073709551616 - 9223372036854775808

/-- The exact integer `x` is representable in `int64`. -/
def inInt64 (x : Int) : Prop :=
  -9223372036854775808 ≤ x ∧ x < 9223372036854775808

instance (x : Int) : Decidable (inInt64 x) := by
  unfold inInt64
  infer_instance

/-- Type `abi.ChainEpoch` (an `int64`). -/
abbrev ChainEpoch := Int

/-- Type `abi.RegisteredSealProof` (an `int64`). -/
abbrev RegisteredSealProof := Int

/-- Type `abi.RegisteredPoStProof` (an `int64`). -/
abbrev RegisteredPoStProof := Int

/-- Type `abi.SectorSize` (a `uint64`). -/
abbrev SectorSize := Nat

/-- Type `abi.StoragePower` (a big integer). -/
abbrev StoragePower := Int

/-- Type `abi.TokenAmount` (a big integer). -/
abbrev TokenAmount := Int

/-- Type `abi.PaddedPieceSize` (a `uint64`). -/
abbrev PaddedPieceSize := Nat

/-- Type `network.Version` (a `uint`). -/
abbrev NetworkVersion := Nat

/-- Type `actors.Version` (an `int`). -/
abbrev ActorsVersion := Int

/-- A non-nil Go `error` value. -/
abbrev GoError := String

/-- Constant `network.Version3`. -/
def network_Version3 : NetworkVersion := 3

/-- Constant `actors.Version0`. -/
def actors_Version0 : ActorsVersion := 0

/-- Constant `actors.Version2`. -/
def actors_Version2 : ActorsVersion := 2

/-- Constant `actors.Version3`. -/
def actors_Version3 : ActorsVersion := 3

/-- Ways in which a call of this package can panic. -/
inductive Panic where
  /-- The statement `panic("...")` with a string argument. -/
  | message (msg : String)
  /-- The statement `panic(err)` with an error argument. -/
  | error (err : GoError)
  /-- Run-time panic: index out of range. -/
  | indexOutOfRange
  /-- Run-time panic: integer divide by zero. -/
  | divideByZero
  deriving DecidableEq, Repr

deriving instance DecidableEq for Except

/-- Reference to a map object of type `map[abi.RegisteredSealProof]struct{}`. -/
abbrev Ref := Nat

/-- Store of map objects.  A map with element type `struct{}` is its key set;
the list gives the keys in the order in which a `range` loop visits them. -/
abbrev MapStore := Ref → List RegisteredSealProof

/-- A Go map `map[abi.RegisteredSealProof]abi.ChainEpoch` that is only read. -/
abbrev DurationTable := RegisteredSealProof → Option ChainEpoch

/-- The index expression `m[k]` on a map of chain epochs: the zero value when
the key is absent. -/
def DurationTable.index (m : DurationTable) (k : RegisteredSealProof) : ChainEpoch :=
  match m k with
  | some v => v
  | none => 0

/-- Struct `builtin2.SealProofPolicy`. -/
structure SealProofPolicy where
  WindowPoStPartitionSectors : Nat
  SectorMaxLifetime : ChainEpoch
  ConsensusMinerMinPower : StoragePower
  deriving DecidableEq, Repr

/-- Struct `builtin3.PoStProofPolicy`. -/
structure PoStProofPolicy where
  WindowPoStPartitionSectors : Nat
  ConsensusMinerMinPower : StoragePower
  deriving DecidableEq, Repr

/-! ## Declarations of other packages -/

/-- Constants and functions declared outside this file. -/
structure Externals where
  /-- Constant `miner3.ChainFinality`. -/
  ChainFinality : ChainEpoch
  /-- Constant `miner0.WPoStPeriodDeadlines` (a `uint64`). -/
  miner0_WPoStPeriodDeadlines : Nat
  /-- Constant `miner2.WPoStPeriodDeadlines` (a `uint64`). -/
  miner2_WPoStPeriodDeadlines : Nat
  /-- Constant `miner3.WPoStPeriodDeadlines` (a `uint64`). -/
  miner3_WPoStPeriodDeadlines : Nat
  /-- Constant `miner0.MaxSectorExpirationExtension`. -/
  miner0_MaxSectorExpirationExtension : ChainEpoch
  /-- Constant `miner3.AddressedSectorsMax` (used as a `uint64`). -/
  miner3_AddressedSectorsMax : Nat
  /-- Constant `abi.RegisteredSealProof_StackedDrg8GiBV1`. -/
  StackedDrg8GiBV1 : RegisteredSealProof
  /-- Method `abi.RegisteredSealProof.SectorSize`. -/
  SectorSize : RegisteredSealProof → Except GoError SectorSize
  /-- Function `builtin3.PoStProofWindowPoStPartitionSectors`, returning the Go
  pair `(uint64, error)`; `none` is the nil error. -/
  PoStProofWindowPoStPartitionSectors : RegisteredPoStProof → Nat × Option GoError
  /-- Function `actors.VersionForNetwork`. -/
  VersionForNetwork : NetworkVersion → Except Panic ActorsVersion
  /-- Function `market0.DealProviderCollateralBounds`. -/
  market0_DealProviderCollateralBounds :
    PaddedPieceSize → Bool → StoragePower → StoragePower → StoragePower → TokenAmount →
      NetworkVersion → TokenAmount × TokenAmount
  /-- Function `market2.DealProviderCollateralBounds`. -/
  market2_DealProviderCollateralBounds :
    PaddedPieceSize → Bool → StoragePower → StoragePower → StoragePower → TokenAmount →
      TokenAmount × TokenAmount
  /-- Function `market3.DealProviderCollateralBounds`. -/
  market3_DealProviderCollateralBounds :
    PaddedPieceSize → Bool → StoragePower → StoragePower → StoragePower → TokenAmount →
      TokenAmount × TokenAmount

/-! ## Package-level variables -/

/-- The package-level variables read or written by `policy.go`. -/
structure State where
  /-- The map objects. -/
  maps : MapStore
  /-- Variable `miner0.SupportedProofTypes`. -/
  miner0_SupportedProofTypes : Ref
  /-- Variable `miner2.SupportedProofTypes`. -/
  miner2_SupportedProofTypes : Ref
  /-- Variable `miner3.SupportedProofTypes`. -/
  miner3_SupportedProofTypes : Ref
  /-- Variable `miner3.PreCommitSealProofTypesV0`. -/
  miner3_PreCommitSealProofTypesV0 : Ref
  /-- Variable `miner3.PreCommitSealProofTypesV7`. -/
  miner3_PreCommitSealProofTypesV7 : Ref
  miner0_PreCommitChallengeDelay : ChainEpoch
  miner2_PreCommitChallengeDelay : ChainEpoch
  miner3_PreCommitChallengeDelay : ChainEpoch
  power0_ConsensusMinerMinPower : StoragePower
  /-- Variable `builtin2.SealProofPolicies`, a map from proof type to a pointer
  to a policy struct, as the list of its entries. -/
  builtin2_SealProofPolicies : List (RegisteredSealProof × SealProofPolicy)
  /-- Variable `builtin3.PoStProofPolicies`, as the list of its entries. -/
  builtin3_PoStProofPolicies : List (RegisteredPoStProof × PoStProofPolicy)
  verifreg0_MinVerifiedDealSize : StoragePower
  verifreg2_MinVerifiedDealSize : StoragePower
  verifreg3_MinVerifiedDealSize : StoragePower
  miner0_MaxSealDuration : DurationTable
  miner2_MaxProveCommitDuration : DurationTable
  miner3_MaxProveCommitDuration : DurationTable
  miner0_WPoStChallengeWindow : ChainEpoch
  miner0_WPoStProvingPeriod : ChainEpoch
  miner2_WPoStChallengeWindow : ChainEpoch
  miner2_WPoStProvingPeriod : ChainEpoch
  miner3_WPoStChallengeWindow : ChainEpoch
  miner3_WPoStProvingPeriod : ChainEpoch

/-- The key set of the map object behind reference `r`. -/
def State.keys (s : State) (r : Ref) : List RegisteredSealProof := s.maps r

/-- The assignment `m[t] = struct{}{}` on the map object behind `r`: the key is
added when it is not yet present. -/
def State.assign (s : State) (r : Ref) (t : RegisteredSealProof) : State :=
  { s with maps := fun a => if a = r then (if t ∈ s.maps a then s.maps a else s.maps a ++ [t])
                            else s.maps a }

/-- The references through which `AddSupportedProofTypes` writes in its loop. -/
def State.writtenRefs (s : State) : List Ref :=
  [s.miner0_SupportedProofTypes, s.miner2_SupportedProofTypes,
    s.miner3_PreCommitSealProofTypesV0, s.miner3_PreCommitSealProofTypesV7]

/-- A reference that no map variable of the state holds. -/
def State.freshRef (s : State) : Ref :=
  max s.miner0_SupportedProofTypes
    (max s.miner2_SupportedProofTypes
      (max s.miner3_SupportedProofTypes
        (max s.miner3_PreCommitSealProofTypesV0 s.miner3_PreCommitSealProofTypesV7))) + 1

/-- The expression `make(map[abi.RegisteredSealProof]struct{}, n)`: a new,
empty map object, returned with the state that holds it. -/
def State.makeMap (s : State) : State × Ref :=
  ({ s with maps := fun a => if a = s.freshRef then [] else s.maps a }, s.freshRef)

/-! ## The functions of `policy.go` -/

/-- One iteration of the loop of `AddSupportedProofTypes`. -/
def AddSupportedProofTypes.step (s : State) (t : RegisteredSealProof) : State :=
  let s := s.assign s.miner0_SupportedProofTypes t
  let s := s.assign s.miner2_SupportedProofTypes t
  let s := s.assign s.miner3_PreCommitSealProofTypesV0 t
  s.assign s.miner3_PreCommitSealProofTypesV7 t

/-- Function `AddSupportedProofTypes`. -/
def AddSupportedProofTypes (E : Externals) (s : State) (types : List RegisteredSealProof) :
    State :=
  let s := types.foldl AddSupportedProofTypes.step s
  s.assign s.miner3_PreCommitSealProofTypesV7 E.StackedDrg8GiBV1

/-- Function `SetSupportedProofTypes`. -/
def SetSupportedProofTypes (E : Externals) (s : State) (types : List RegisteredSealProof) :
    State :=
  let (s, newTypes) := s.makeMap
  let s := { s with miner0_SupportedProofTypes := newTypes }
  let s := { s with miner2_SupportedProofTypes := newTypes }
  let s := { s with miner3_PreCommitSealProofTypesV0 := newTypes }
  let s := { s with miner3_PreCommitSealProofTypesV7 := newTypes }
  AddSupportedProofTypes E s types

/-- Function `SetPreCommitChallengeDelay`. -/
def SetPreCommitChallengeDelay (s : State) (delay : ChainEpoch) : State :=
  let s := { s with miner0_PreCommitChallengeDelay := delay }
  let s := { s with miner2_PreCommitChallengeDelay := delay }
  { s with miner3_PreCommitChallengeDelay := delay }

/-- Function `GetPreCommitChallengeDelay`. -/
def GetPreCommitChallengeDelay (s : State) : ChainEpoch :=
  s.miner0_PreCommitChallengeDelay

/-- Function `SetConsensusMinerMinPower`.  The map values are pointers, so the
assignment inside each loop updates the entry of the table. -/
def SetConsensusMinerMinPower (s : State) (p : StoragePower) : State :=
  let s := { s with power0_ConsensusMinerMinPower := p }
  let sealPolicies := s.builtin2_SealProofPolicies.map
    (fun kv => (kv.1, { kv.2 with ConsensusMinerMinPower := p }))
  let s := { s with builtin2_SealProofPolicies := sealPolicies }
  let postPolicies := s.builtin3_PoStProofPolicies.map
    (fun kv => (kv.1, { kv.2 with ConsensusMinerMinPower := p }))
  { s with builtin3_PoStProofPolicies := postPolicies }

/-- Function `SetMinVerifiedDealSize`. -/
def SetMinVerifiedDealSize (s : State) (size : StoragePower) : State :=
  let s := { s with verifreg0_MinVerifiedDealSize := size }
  let s := { s with verifreg2_MinVerifiedDealSize := size }
  { s with verifreg3_MinVerifiedDealSize := size }

/-- Function `GetMaxProveCommitDuration`. -/
def GetMaxProveCommitDuration (s : State) (ver : ActorsVersion) (t : RegisteredSealProof) :
    Except Panic ChainEpoch :=
  if ver = actors_Version0 then
    .ok (s.miner0_MaxSealDuration.index t)
  else if ver = actors_Version2 then
    .ok (s.miner2_MaxProveCommitDuration.index t)
  else if ver = actors_Version3 then
    .ok (s.miner3_MaxProveCommitDuration.index t)
  else
    .error (.message "unsupported actors version")

/-- Function `DealProviderCollateralBounds`. -/
def DealProviderCollateralBounds (E : Externals) (size : PaddedPieceSize) (verified : Bool)
    (rawBytePower qaPower baselinePower : StoragePower) (circulatingFil : TokenAmount)
    (nwVer : NetworkVersion) : Except Panic (TokenAmount × TokenAmount) :=
  match E.VersionForNetwork nwVer with
  | .error p => .error p
  | .ok ver =>
    if ver = actors_Version0 then
      .ok (E.market0_DealProviderCollateralBounds size verified rawBytePower qaPower
        baselinePower circulatingFil nwVer)
    else if ver = actors_Version2 then
      .ok (E.market2_DealProviderCollateralBounds size verified rawBytePower qaPower
        baselinePower circulatingFil)
    else if ver = actors_Version3 then
      .ok (E.market3_DealProviderCollateralBounds size verified rawBytePower qaPower
        baselinePower circulatingFil)
    else
      .error (.message "unsupported network version")

/-- Function `SetWPoStChallengeWindow`.  The product is an `int64` product, and
`abi.ChainEpoch(...)` converts the `uint64` constant to `int64`. -/
def SetWPoStChallengeWindow (E : Externals) (s : State) (period : ChainEpoch) : State :=
  let deadlines0 : ChainEpoch := wrapInt64 E.miner0_WPoStPeriodDeadlines
  let deadlines2 : ChainEpoch := wrapInt64 E.miner2_WPoStPeriodDeadlines
  let deadlines3 : ChainEpoch := wrapInt64 E.miner3_WPoStPeriodDeadlines
  let s := { s with miner0_WPoStChallengeWindow := period }
  let s := { s with miner0_WPoStProvingPeriod := wrapInt64 (period * deadlines0) }
  let s := { s with miner2_WPoStChallengeWindow := period }
  let s := { s with miner2_WPoStProvingPeriod := wrapInt64 (period * deadlines2) }
  let s := { s with miner3_WPoStChallengeWindow := period }
  { s with miner3_WPoStProvingPeriod := wrapInt64 (period * deadlines3) }

/-- Function `GetWinningPoStSectorSetLookback`. -/
def GetWinningPoStSectorSetLookback (E : Externals) (nwVer : NetworkVersion) : ChainEpoch :=
  if nwVer ≤ network_Version3 then 10 else E.ChainFinality

/-- Function `GetMaxSectorExpirationExtension`. -/
def GetMaxSectorExpirationExtension (E : Externals) : ChainEpoch :=
  E.miner0_MaxSectorExpirationExtension

/-- Function `GetMaxPoStPartitions`, returning the Go pair `(int, error)`.  The
quotient is a `uint64` quotient, converted to `int` (64 bits). -/
def GetMaxPoStPartitions (E : Externals) (p : RegisteredPoStProof) :
    Except Panic (Int × Option GoError) :=
  match E.PoStProofWindowPoStPartitionSectors p with
  | (_, some err) => .ok (0, some err)
  | (sectorsPerPart, none) =>
    if sectorsPerPart = 0 then .error .divideByZero
    else .ok (wrapInt64 ((E.miner3_AddressedSectorsMax / sectorsPerPart : Nat) : Int), none)

/-- The `range` loop of `GetDefaultSectorSize`: `szs` is the slice built so
far, the list holds the keys still to visit. -/
def GetDefaultSectorSize.loop (E : Externals) :
    List RegisteredSealProof → List SectorSize → Except Panic (List SectorSize)
  | [], szs => .ok szs
  | spt :: rest, szs =>
    match E.SectorSize spt with
    | .error err => .error (.error err)
    | .ok ss => GetDefaultSectorSize.loop E rest (szs ++ [ss])

/-- The call `sort.Slice(szs, func(i, j int) bool { return szs[i] < szs[j] })`:
the slice in non-decreasing order. -/
def sortSlice (szs : List SectorSize) : List SectorSize :=
  szs.insertionSort (fun a b => a ≤ b)

/-- Function `GetDefaultSectorSize`. -/
def GetDefaultSectorSize (E : Externals) (s : State) : Except Panic SectorSize :=
  match GetDefaultSectorSize.loop E (s.keys s.miner3_SupportedProofTypes) [] with
  | .error p => .error p
  | .ok szs =>
    match sortSlice szs with
    | [] => .error .indexOutOfRange
    | sz :: _ => .ok sz

/-- A call of one of the mutators of the package, with its arguments. -/
inductive MutatorCall where
  | SetSupportedProofTypes (types : List RegisteredSealProof)
  | AddSupportedProofTypes (types : List RegisteredSealProof)
  | SetPreCommitChallengeDelay (delay : ChainEpoch)
  | SetConsensusMinerMinPower (p : StoragePower)
  | SetMinVerifiedDealSize (size : StoragePower)
  | SetWPoStChallengeWindow (period : ChainEpoch)

/-- The state after a mutator call. -/
def MutatorCall.run (E : Externals) (s : State) : MutatorCall → State
  | .SetSupportedProofTypes types => Policy.SetSupportedProofTypes E s types
  | .AddSupportedProofTypes types => Policy.AddSupportedProofTypes E s types
  | .SetPreCommitChallengeDelay delay => Policy.SetPreCommitChallengeDelay s delay
  | .SetConsensusMinerMinPower p => Policy.SetConsensusMinerMinPower s p
  | .SetMinVerifiedDealSize size => Policy.SetMinVerifiedDealSize s size
  | .SetWPoStChallengeWindow period => Policy.SetWPoStChallengeWindow E s period

/-- The state after a sequence of mutator calls, made one after the other. -/
def MutatorCall.runAll (E : Externals) (s : State) (calls : List MutatorCall) : State :=
  calls.foldl (fun st c => c.run E st) s

/-- A call of one of the queries of the package, with its arguments. -/
inductive QueryCall where
  | GetMaxProveCommitDuration (ver : ActorsVersion) (t : RegisteredSealProof)
  | DealProviderCollateralBounds (size : PaddedPieceSize) (verified : Bool)
      (rawBytePower qaPower baselinePower : StoragePower) (circulatingFil : TokenAmount)
      (nwVer : NetworkVersion)
  | GetWinningPoStSectorSetLookback (nwVer : NetworkVersion)
  | GetMaxSectorExpirationExtension
  | GetPreCommitChallengeDelay
  | GetMaxPoStPartitions (p : RegisteredPoStProof)
  | GetDefaultSectorSize

/-- What a query call returns, or its panic. -/
inductive QueryResult where
  | epoch (r : Except Panic ChainEpoch)
  | bounds (r : Except Panic (TokenAmount × TokenAmount))
  | partitions (r : Except Panic (Int × Option GoError))
  | sectorSize (r : Except Panic SectorSize)
  deriving DecidableEq

/-- A query call in state-passing form: its result and the state after it.  The
body of no query assigns to a package-level variable or to a map, so the state
after the call is the state before it. -/
def QueryCall.run (E : Externals) (s : State) : QueryCall → QueryResult × State
  | .GetMaxProveCommitDuration ver t => (.epoch (Policy.GetMaxProveCommitDuration s ver t), s)
  | .DealProviderCollateralBounds size verified rawBytePower qaPower baselinePower
      circulatingFil nwVer =>
    (.bounds (Policy.DealProviderCollateralBounds E size verified rawBytePower qaPower
      baselinePower circulatingFil nwVer), s)
  | .GetWinningPoStSectorSetLookback nwVer =>
    (.epoch (.ok (Policy.GetWinningPoStSectorSetLookback E nwVer)), s)
  | .GetMaxSectorExpirationExtension =>
    (.epoch (.ok (Policy.GetMaxSectorExpirationExtension E)), s)
  | .GetPreCommitChallengeDelay => (.epoch (.ok (Policy.GetPreCommitChallengeDelay s)), s)
  | .GetMaxPoStPartitions p => (.partitions (Policy.GetMaxPoStPartitions E p), s)
  | .GetDefaultSectorSize => (.sectorSize (Policy.GetDefaultSectorSize E s), s)

/-! ## Predicates used in the statements -/

/-- The three revisions hold the same pre-commit challenge delay. -/
def delaysAgree (s : State) : Prop :=
  s.miner0_PreCommitChallengeDelay = s.miner2_PreCommitChallengeDelay ∧
  s.miner2_PreCommitChallengeDelay = s.miner3_PreCommitChallengeDelay

instance (s : State) : Decidable (delaysAgree s) := by
  unfold delaysAgree
  infer_instance

/-- The four variables assigned by `SetSupportedProofTypes` refer to one and
the same map object. -/
def sharesOneMap (s : State) : Prop :=
  s.miner0_SupportedProofTypes = s.miner3_PreCommitSealProofTypesV7 ∧
  s.miner2_SupportedProofTypes = s.miner3_PreCommitSealProofTypesV7 ∧
  s.miner3_PreCommitSealProofTypesV0 = s.miner3_PreCommitSealProofTypesV7

instance (s : State) : Decidable (sharesOneMap s) := by
  unfold sharesOneMap
  infer_instance

/-- The proving period of every revision is the exact product of its challenge
window and its number of deadlines. -/
def ProvingPeriodInvariant (E : Externals) (s : State) : Prop :=
  s.miner0_WPoStProvingPeriod = s.miner0_WPoStChallengeWindow * E.miner0_WPoStPeriodDeadlines ∧
  s.miner2_WPoStProvingPeriod = s.miner2_WPoStChallengeWindow * E.miner2_WPoStPeriodDeadlines ∧
  s.miner3_WPoStProvingPeriod = s.miner3_WPoStChallengeWindow * E.miner3_WPoStPeriodDeadlines

instance (E : Externals) (s : State) : Decidable (ProvingPeriodInvariant E s) := by
  unfold ProvingPeriodInvariant
  infer_instance

/-- The same relation with the product taken in `int64`, as the Go expression
`period * abi.ChainEpoch(WPoStPeriodDeadlines)` computes it. -/
def ProvingPeriodInvariantInt64 (E : Externals) (s : State) : Prop :=
  s.miner0_WPoStProvingPeriod
    = wrapInt64 (s.miner0_WPoStChallengeWindow * wrapInt64 E.miner0_WPoStPeriodDeadlines) ∧
  s.miner2_WPoStProvingPeriod
    = wrapInt64 (s.miner2_WPoStChallengeWindow * wrapInt64 E.miner2_WPoStPeriodDeadlines) ∧
  s.miner3_WPoStProvingPeriod
    = wrapInt64 (s.miner3_WPoStChallengeWindow * wrapInt64 E.miner3_WPoStPeriodDeadlines)

/-- For challenge window `period`, the number of deadlines of every revision
and its product with `period` are representable in `int64`. -/
def challengeWindowFits (E : Externals) (period : ChainEpoch) : Prop :=
  (inInt64 E.miner0_WPoStPeriodDeadlines ∧ inInt64 (period * E.miner0_WPoStPeriodDeadlines)) ∧
  (inInt64 E.miner2_WPoStPeriodDeadlines ∧ inInt64 (period * E.miner2_WPoStPeriodDeadlines)) ∧
  (inInt64 E.miner3_WPoStPeriodDeadlines ∧ inInt64 (period * E.miner3_WPoStPeriodDeadlines))

instance (E : Externals) (period : ChainEpoch) : Decidable (challengeWindowFits E period) := by
  unfold challengeWindowFits
  infer_instance

/-- The arguments of a mutator call cause no `int64` overflow. -/
def MutatorCall.fits (E : Externals) : MutatorCall → Prop
  | .SetWPoStChallengeWindow period => challengeWindowFits E period
  | _ => True

instance (E : Externals) (c : MutatorCall) : Decidable (c.fits E) := by
  cases c <;> unfold MutatorCall.fits <;> infer_instance

/-- The sector size of a result of `SectorSize`, 0 for an error. -/
def sizeOrZero (r : Except GoError SectorSize) : SectorSize :=
  match r with
  | .ok z => z
  | .error _ => 0

/-! ## Sample values

Values of the declarations of the other packages and of the package-level
variables, used to evaluate the functions on concrete inputs. -/

/-- Sample sector sizes: proof types 0 to 4 are the 2KiB, 8MiB, 512MiB, 32GiB
and 64GiB types, 10 stands for the 8GiB type. -/
def sampleSectorSize (p : RegisteredSealProof) : Except GoError SectorSize :=
  if p = 0 then .ok 2048
  else if p = 1 then .ok 8388608
  else if p = 2 then .ok 536870912
  else if p = 3 then .ok 34359738368
  else if p = 4 then .ok 68719476736
  else if p = 10 then .ok 8589934592
  else .error "unsupported proof type"

/-- Sample partition sizes of the window PoSt proof types 5 to 9. -/
def samplePartitionSectors (p : RegisteredPoStProof) : Nat × Option GoError :=
  if p = 5 ∨ p = 6 ∨ p = 7 then (2, none)
  else if p = 8 then (2349, none)
  else if p = 9 then (2300, none)
  else (0, some "unsupported proof type")

/-- Sample mapping of network versions to actors versions. -/
def sampleVersionForNetwork (v : NetworkVersion) : Except Panic ActorsVersion :=
  if v ≤ 3 then .ok actors_Version0
  else if v ≤ 9 then .ok actors_Version2
  else if v ≤ 11 then .ok actors_Version3
  else .error (.message "unsupported network version")

/-- Sample declarations of the other packages. -/
def sampleExternals : Externals where
  ChainFinality := 900
  miner0_WPoStPeriodDeadlines := 48
  miner2_WPoStPeriodDeadlines := 48
  miner3_WPoStPeriodDeadlines := 48
  miner0_MaxSectorExpirationExtension := 1555200
  miner3_AddressedSectorsMax := 25000
  StackedDrg8GiBV1 := 10
  SectorSize := sampleSectorSize
  PoStProofWindowPoStPartitionSectors := samplePartitionSectors
  VersionForNetwork := sampleVersionForNetwork
  market0_DealProviderCollateralBounds := fun size _ _ _ _ _ nwVer => (nwVer, size)
  market2_DealProviderCollateralBounds := fun size _ _ _ _ _ => (2, size)
  market3_DealProviderCollateralBounds := fun size _ _ _ _ _ => (3, size)

/-- Sample duration table with entries for the 32GiB and 64GiB types only. -/
def sampleDurations (p : RegisteredSealProof) : Option ChainEpoch :=
  if p = 3 ∨ p = 4 then some 2880 else none

/-- Sample state: five distinct map objects, each holding the 32GiB and the
64GiB proof type. -/
def sampleState : State where
  maps := fun _ => [3, 4]
  miner0_SupportedProofTypes := 0
  miner2_SupportedProofTypes := 1
  miner3_SupportedProofTypes := 2
  miner3_PreCommitSealProofTypesV0 := 3
  miner3_PreCommitSealProofTypesV7 := 4
  miner0_PreCommitChallengeDelay := 150
  miner2_PreCommitChallengeDelay := 150
  miner3_PreCommitChallengeDelay := 150
  power0_ConsensusMinerMinPower := 10995116277760
  builtin2_SealProofPolicies := [(3, ⟨2349, 1555200, 10995116277760⟩),
    (4, ⟨2300, 1555200, 21990232555520⟩)]
  builtin3_PoStProofPolicies := [(8, ⟨2349, 10995116277760⟩), (9, ⟨2300, 21990232555520⟩)]
  verifreg0_MinVerifiedDealSize := 1048576
  verifreg2_MinVerifiedDealSize := 1048576
  verifreg3_MinVerifiedDealSize := 1048576
  miner0_MaxSealDuration := sampleDurations
  miner2_MaxProveCommitDuration := sampleDurations
  miner3_MaxProveCommitDuration := sampleDurations
  miner0_WPoStChallengeWindow := 60
  miner0_WPoStProvingPeriod := 2880
  miner2_WPoStChallengeWindow := 60
  miner2_WPoStProvingPeriod := 2880
  miner3_WPoStChallengeWindow := 60
  miner3_WPoStProvingPeriod := 2880

/-- Sample state in which the supported set read by `GetDefaultSectorSize` is
empty. -/
def sampleEmptyState : State :=
  { sampleState with maps := fun a => if a = 2 then [] else [3, 4] }

/-! ## Integer conversions -/

theorem wrapInt64_of_inInt64 {x : Int} (h : inInt64 x) : wrapInt64 x = x := by
  unfold inInt64 at h
  unfold wrapInt64
  omega

theorem inInt64_wrapInt64 (x : Int) : inInt64 (wrapInt64 x) := by
  unfold inInt64 wrapInt64
  omega

/-! ## The map store -/

theorem mem_keys_assign (s : State) (r a : Ref) (t x : RegisteredSealProof) :
    x ∈ (s.assign r t).keys a ↔ x ∈ s.keys a ∨ (a = r ∧ x = t) := by
  unfold State.assign State.keys
  by_cases h : a = r
  · by_cases ht : t ∈ s.maps a
    · simp only [h, if_true]
      rw [h] at ht
      simp only [ht, if_true]
      constructor
      · intro hx
        exact Or.inl hx
      · rintro (hx | ⟨-, rfl⟩)
        · exact hx
        · exact ht
    · simp only [h, if_true]
      rw [h] at ht
      simp only [ht, if_false, List.mem_append, List.mem_singleton, true_and]
  · simp only [h, if_false, false_and, or_false]

theorem foldl_step_eq (types : List RegisteredSealProof) (s : State) :
    ∃ m, types.foldl AddSupportedProofTypes.step s = { s with maps := m } := by
  induction types generalizing s with
  | nil => exact ⟨s.maps, rfl⟩
  | cons t ts ih =>
    obtain ⟨m, hm⟩ := ih (AddSupportedProofTypes.step s t)
    exact ⟨m, by rw [List.foldl_cons, hm]; rfl⟩

/-- `AddSupportedProofTypes` changes map objects only: every variable keeps its
value. -/
theorem AddSupportedProofTypes_eq (E : Externals) (s : State)
    (types : List RegisteredSealProof) :
    ∃ m, AddSupportedProofTypes E s types = { s with maps := m } := by
  obtain ⟨m, hm⟩ := foldl_step_eq types s
  unfold AddSupportedProofTypes
  simp only [hm]
  exact ⟨_, rfl⟩

/-- `SetSupportedProofTypes` changes map objects and the four variables it
assigns. -/
theorem SetSupportedProofTypes_eq (E : Externals) (s : State)
    (types : List RegisteredSealProof) :
    ∃ m, SetSupportedProofTypes E s types =
      { s with maps := m
               miner0_SupportedProofTypes := s.freshRef
               miner2_SupportedProofTypes := s.freshRef
               miner3_PreCommitSealProofTypesV0 := s.freshRef
               miner3_PreCommitSealProofTypesV7 := s.freshRef } := by
  unfold SetSupportedProofTypes State.makeMap
  simp only
  obtain ⟨m, hm⟩ := AddSupportedProofTypes_eq E
    { s with maps := fun a => if a = s.freshRef then [] else s.maps a
             miner0_SupportedProofTypes := s.freshRef
             miner2_SupportedProofTypes := s.freshRef
             miner3_PreCommitSealProofTypesV0 := s.freshRef
             miner3_PreCommitSealProofTypesV7 := s.freshRef } types
  exact ⟨m, hm⟩

theorem mem_keys_step (s : State) (t x : RegisteredSealProof) (a : Ref) :
    x ∈ (AddSupportedProofTypes.step s t).keys a ↔
      x ∈ s.keys a ∨ (a ∈ s.writtenRefs ∧ x = t) := by
  unfold AddSupportedProofTypes.step
  simp only [mem_keys_assign, State.writtenRefs, List.mem_cons, List.mem_singleton,
    List.mem_nil_iff, or_false]
  have e1 : (s.assign s.miner0_SupportedProofTypes t).miner2_SupportedProofTypes
      = s.miner2_SupportedProofTypes := rfl
  tauto

theorem writtenRefs_step (s : State) (t : RegisteredSealProof) :
    (AddSupportedProofTypes.step s t).writtenRefs = s.writtenRefs := rfl

theorem mem_keys_foldl_step (types : List RegisteredSealProof) (s : State)
    (x : RegisteredSealProof) (a : Ref) :
    x ∈ (types.foldl AddSupportedProofTypes.step s).keys a ↔
      x ∈ s.keys a ∨ (a ∈ s.writtenRefs ∧ x ∈ types) := by
  induction types generalizing s with
  | nil => simp
  | cons t ts ih =>
    rw [List.foldl_cons, ih, mem_keys_step, writtenRefs_step, List.mem_cons]
    tauto

/-- Membership in a map object after `AddSupportedProofTypes`. -/
theorem mem_keys_AddSupportedProofTypes (E : Externals) (s : State)
    (types : List RegisteredSealProof) (x : RegisteredSealProof) (a : Ref) :
    x ∈ (AddSupportedProofTypes E s types).keys a ↔
      x ∈ s.keys a ∨ (a ∈ s.writtenRefs ∧ x ∈ types) ∨
        (a = s.miner3_PreCommitSealProofTypesV7 ∧ x = E.StackedDrg8GiBV1) := by
  obtain ⟨m, hm⟩ := foldl_step_eq types s
  unfold AddSupportedProofTypes
  simp only [mem_keys_assign, mem_keys_foldl_step]
  rw [hm]
  tauto

theorem freshRef_gt (s : State) :
    s.miner0_SupportedProofTypes < s.freshRef ∧ s.miner2_SupportedProofTypes < s.freshRef ∧
    s.miner3_SupportedProofTypes < s.freshRef ∧
    s.miner3_PreCommitSealProofTypesV0 < s.freshRef ∧
    s.miner3_PreCommitSealProofTypesV7 < s.freshRef := by
  unfold State.freshRef
  simp only [Nat.lt_succ_iff, le_max_iff, le_refl, true_or, or_true, and_self]

/-- Membership in a map object after `SetSupportedProofTypes`: the new object
holds the given types and the 8GiB type, every other object is as before. -/
theorem mem_keys_SetSupportedProofTypes (E : Externals) (s : State)
    (types : List RegisteredSealProof) (x : RegisteredSealProof) (a : Ref) :
    x ∈ (SetSupportedProofTypes E s types).keys a ↔
      if a = s.freshRef then x ∈ types ∨ x = E.StackedDrg8GiBV1 else x ∈ s.keys a := by
  unfold SetSupportedProofTypes State.makeMap
  simp only [mem_keys_AddSupportedProofTypes]
  simp only [State.writtenRefs, State.keys, List.mem_cons, List.mem_singleton,
    List.mem_nil_iff, or_false, or_self]
  by_cases h : a = s.freshRef
  · simp [h]
  · simp [h]

/-- With the product taken in `int64`, the relation between proving period
and challenge window is kept by every mutator call. -/
theorem ProvingPeriodInvariantInt64_run (E : Externals) (s : State) (c : MutatorCall)
    (hinv : ProvingPeriodInvariantInt64 E s) : ProvingPeriodInvariantInt64 E (c.run E s) := by
  cases c with
  | SetSupportedProofTypes types =>
    obtain ⟨m, hm⟩ := SetSupportedProofTypes_eq E s types
    simp only [MutatorCall.run, hm]
    exact hinv
  | AddSupportedProofTypes types =>
    obtain ⟨m, hm⟩ := AddSupportedProofTypes_eq E s types
    simp only [MutatorCall.run, hm]
    exact hinv
  | SetPreCommitChallengeDelay delay => exact hinv
  | SetConsensusMinerMinPower p => exact hinv
  | SetMinVerifiedDealSize size => exact hinv
  | SetWPoStChallengeWindow period => exact ⟨rfl, rfl, rfl⟩

/-- `AddSupportedProofTypes` assigns to no map variable. -/
theorem AddSupportedProofTypes_refs (E : Externals) (s : State)
    (types : List RegisteredSealProof) :
    (AddSupportedProofTypes E s types).miner0_SupportedProofTypes
      = s.miner0_SupportedProofTypes ∧
    (AddSupportedProofTypes E s types).miner2_SupportedProofTypes
      = s.miner2_SupportedProofTypes ∧
    (AddSupportedProofTypes E s types).miner3_SupportedProofTypes
      = s.miner3_SupportedProofTypes ∧
    (AddSupportedProofTypes E s types).miner3_PreCommitSealProofTypesV0
      = s.miner3_PreCommitSealProofTypesV0 ∧
    (AddSupportedProofTypes E s types).miner3_PreCommitSealProofTypesV7
      = s.miner3_PreCommitSealProofTypesV7 := by
  obtain ⟨m, hm⟩ := AddSupportedProofTypes_eq E s types
  rw [hm]
  exact ⟨rfl, rfl, rfl, rfl, rfl⟩

/-- After `SetSupportedProofTypes` the four variables it assigns hold the same
new reference; `miner3.SupportedProofTypes` keeps its reference. -/
theorem SetSupportedProofTypes_refs (E : Externals) (s : State)
    (types : List RegisteredSealProof) :
    (SetSupportedProofTypes E s types).miner0_SupportedProofTypes = s.freshRef ∧
    (SetSupportedProofTypes E s types).miner2_SupportedProofTypes = s.freshRef ∧
    (SetSupportedProofTypes E s types).miner3_SupportedProofTypes
      = s.miner3_SupportedProofTypes ∧
    (SetSupportedProofTypes E s types).miner3_PreCommitSealProofTypesV0 = s.freshRef ∧
    (SetSupportedProofTypes E s types).miner3_PreCommitSealProofTypesV7 = s.freshRef := by
  obtain ⟨m, hm⟩ := SetSupportedProofTypes_eq E s types
  rw [hm]
  exact ⟨rfl, rfl, rfl, rfl, rfl⟩

/-! ## The loop and the sort of `GetDefaultSectorSize` -/

/-- When every key has a sector size, the loop appends the sizes of the keys,
in order, to the slice. -/
theorem GetDefaultSectorSize_loop_ok (E : Externals) (keys : List RegisteredSealProof)
    (szs : List SectorSize) (hdef : ∀ spt ∈ keys, ∃ ss, E.SectorSize spt = .ok ss) :
    ∃ zs : List SectorSize, GetDefaultSectorSize.loop E keys szs = .ok (szs ++ zs) ∧
      keys.map E.SectorSize = zs.map Except.ok := by
  induction keys generalizing szs with
  | nil => exact ⟨[], by simp [GetDefaultSectorSize.loop], rfl⟩
  | cons k ks ih =>
    obtain ⟨z, hz⟩ := hdef k (List.mem_cons_self k ks)
    obtain ⟨zs, hloop, hmap⟩ := ih (szs ++ [z]) (fun spt h => hdef spt (List.mem_cons_of_mem k h))
    refine ⟨z :: zs, ?_, ?_⟩
    · simp only [GetDefaultSectorSize.loop, hz, hloop, List.append_assoc, List.singleton_append]
    · simp only [List.map_cons, hz, hmap]

/-- The first element of the sorted slice is an element of the slice and is at
most every element of the slice. -/
theorem sortSlice_head (szs : List SectorSize) (hne : szs ≠ []) :
    ∃ sz rest, sortSlice szs = sz :: rest ∧ sz ∈ szs ∧ ∀ z ∈ szs, sz ≤ z := by
  have hperm : (sortSlice szs).Perm szs := List.perm_insertionSort _ szs
  have hsorted : (sortSlice szs).Sorted (fun a b => a ≤ b) := List.sorted_insertionSort _ szs
  cases hs : sortSlice szs with
  | nil =>
    rw [hs] at hperm
    exact absurd (List.Perm.nil_eq hperm) (fun h => hne h.symm)
  | cons sz rest =>
    rw [hs] at hperm hsorted
    refine ⟨sz, rest, rfl, hperm.subset (List.mem_cons_self sz rest), fun z hz => ?_⟩
    rcases List.mem_cons.mp (hperm.symm.subset hz) with h | h
    · exact le_of_eq h.symm
    · exact List.rel_of_sorted_cons hsorted z h

/-- For a non-empty key set all of whose members have a sector size,
`GetDefaultSectorSize` returns the least sector size of a member. -/
theorem GetDefaultSectorSize_least (E : Externals) (s : State)
    (hne : s.keys s.miner3_SupportedProofTypes ≠ [])
    (hdef : ∀ spt ∈ s.keys s.miner3_SupportedProofTypes, ∃ ss, E.SectorSize spt = .ok ss) :
    ∃ sz, GetDefaultSectorSize E s = .ok sz ∧
      (∃ spt ∈ s.keys s.miner3_SupportedProofTypes, E.SectorSize spt = .ok sz) ∧
      (∀ spt ∈ s.keys s.miner3_SupportedProofTypes, ∀ ss,
        E.SectorSize spt = .ok ss → sz ≤ ss) := by
  obtain ⟨zs, hloop, hmap⟩ := GetDefaultSectorSize_loop_ok E _ [] hdef
  rw [List.nil_append] at hloop
  have hzs : zs ≠ [] := by
    intro h
    rw [h, List.map_nil, List.map_eq_nil_iff] at hmap
    exact hne hmap
  obtain ⟨sz, rest, hsort, hmem, hle⟩ := sortSlice_head zs hzs
  refine ⟨sz, ?_, ?_, ?_⟩
  · simp only [GetDefaultSectorSize, hloop, hsort]
  · have h1 : (Except.ok sz : Except GoError SectorSize) ∈ zs.map Except.ok :=
      List.mem_map_of_mem _ hmem
    rw [← hmap, List.mem_map] at h1
    obtain ⟨spt, hspt, hsz⟩ := h1
    exact ⟨spt, hspt, hsz⟩
  · intro spt hspt ss hss
    have h1 : E.SectorSize spt ∈ (s.keys s.miner3_SupportedProofTypes).map E.SectorSize :=
      List.mem_map_of_mem _ hspt
    rw [hmap, hss, List.mem_map] at h1
    obtain ⟨z, hz, hzeq⟩ := h1
    have hzz : z = ss := by injection hzeq
    exact hzz ▸ hle z hz

/-! ## Challenge window and proving period -/

/-- C1, counterexample: the challenge window `2^62` is an `int64` value, the
number of deadlines is 48, and after `SetWPoStChallengeWindow(2^62)` the proving
period of revision v0 is 0, not `2^62 * 48`. -/
theorem SetWPoStChallengeWindow_overflow :
    inInt64 4611686018427387904 ∧
    sampleExternals.miner0_WPoStPeriodDeadlines = 48 ∧
    (SetWPoStChallengeWindow sampleExternals sampleState
      4611686018427387904).miner0_WPoStProvingPeriod = 0 ∧
    (SetWPoStChallengeWindow sampleExternals sampleState
      4611686018427387904).miner0_WPoStProvingPeriod
        ≠ 4611686018427387904 * (sampleExternals.miner0_WPoStPeriodDeadlines : Int) := by
  decide

/-- C1, amended: for every challenge window `W` whose product with the number
of deadlines of each revision is representable in `int64`, and every starting
state, after `SetWPoStChallengeWindow(W)` each of the revisions v0, v2 and v3
has `WPoStChallengeWindow` equal to `W` and `WPoStProvingPeriod` equal to `W`
times that revision's `WPoStPeriodDeadlines`, whatever the values were before. -/
theorem SetWPoStChallengeWindow_sets_every_revision (E : Externals) (s : State)
    (W : ChainEpoch) (hfit : challengeWindowFits E W) :
    (SetWPoStChallengeWindow E s W).miner0_WPoStChallengeWindow = W ∧
    (SetWPoStChallengeWindow E s W).miner0_WPoStProvingPeriod
      = W * E.miner0_WPoStPeriodDeadlines ∧
    (SetWPoStChallengeWindow E s W).miner2_WPoStChallengeWindow = W ∧
    (SetWPoStChallengeWindow E s W).miner2_WPoStProvingPeriod
      = W * E.miner2_WPoStPeriodDeadlines ∧
    (SetWPoStChallengeWindow E s W).miner3_WPoStChallengeWindow = W ∧
    (SetWPoStChallengeWindow E s W).miner3_WPoStProvingPeriod
      = W * E.miner3_WPoStPeriodDeadlines := by
  obtain ⟨⟨d0, p0⟩, ⟨d2, p2⟩, ⟨d3, p3⟩⟩ := hfit
  unfold SetWPoStChallengeWindow
  simp only [wrapInt64_of_inInt64 d0, wrapInt64_of_inInt64 d2, wrapInt64_of_inInt64 d3,
    wrapInt64_of_inInt64 p0, wrapInt64_of_inInt64 p2, wrapInt64_of_inInt64 p3, and_self]

/-- C1, instance: with 48 deadlines in every revision and challenge window 30,
every revision ends with challenge window 30 and proving period 1440, from a
state where they were 60 and 2880. -/
theorem SetWPoStChallengeWindow_sets_every_revision_witness :
    challengeWindowFits sampleExternals 30 ∧
    sampleState.miner0_WPoStProvingPeriod = 2880 ∧
    (SetWPoStChallengeWindow sampleExternals sampleState 30).miner0_WPoStChallengeWindow = 30 ∧
    (SetWPoStChallengeWindow sampleExternals sampleState 30).miner0_WPoStProvingPeriod
      = 30 * (48 : Nat) ∧
    (SetWPoStChallengeWindow sampleExternals sampleState 30).miner2_WPoStChallengeWindow = 30 ∧
    (SetWPoStChallengeWindow sampleExternals sampleState 30).miner2_WPoStProvingPeriod
      = 30 * (48 : Nat) ∧
    (SetWPoStChallengeWindow sampleExternals sampleState 30).miner3_WPoStChallengeWindow = 30 ∧
    (SetWPoStChallengeWindow sampleExternals sampleState 30).miner3_WPoStProvingPeriod
      = 30 * (48 : Nat) :=
  ⟨by decide, rfl,
    SetWPoStChallengeWindow_sets_every_revision sampleExternals sampleState 30 (by decide)⟩

/-- C2, counterexample: the relation with the exact product holds in the sample
state and fails after the call `SetWPoStChallengeWindow(2^62)`. -/
theorem ProvingPeriodInvariant_broken_by_overflow :
    ProvingPeriodInvariant sampleExternals sampleState ∧
    ¬ ProvingPeriodInvariant sampleExternals
      ((MutatorCall.SetWPoStChallengeWindow 4611686018427387904).run
        sampleExternals sampleState) := by
  decide

/-- C2, amended: the predicate "for every revision R in v0, v2, v3,
`WPoStProvingPeriod(R) = WPoStChallengeWindow(R) * WPoStPeriodDeadlines(R)`" is
kept by any single call of `SetSupportedProofTypes`, `AddSupportedProofTypes`,
`SetPreCommitChallengeDelay`, `SetConsensusMinerMinPower` and
`SetMinVerifiedDealSize` with any arguments, and by `SetWPoStChallengeWindow(W)`
for every `W` whose product with each revision's number of deadlines is
representable in `int64`. -/
theorem ProvingPeriodInvariant_run (E : Externals) (s : State) (c : MutatorCall)
    (hfit : c.fits E) (hinv : ProvingPeriodInvariant E s) :
    ProvingPeriodInvariant E (c.run E s) := by
  cases c with
  | SetSupportedProofTypes types =>
    obtain ⟨m, hm⟩ := SetSupportedProofTypes_eq E s types
    simp only [MutatorCall.run, hm]
    exact hinv
  | AddSupportedProofTypes types =>
    obtain ⟨m, hm⟩ := AddSupportedProofTypes_eq E s types
    simp only [MutatorCall.run, hm]
    exact hinv
  | SetPreCommitChallengeDelay delay => exact hinv
  | SetConsensusMinerMinPower p => exact hinv
  | SetMinVerifiedDealSize size => exact hinv
  | SetWPoStChallengeWindow period =>
    obtain ⟨⟨d0, p0⟩, ⟨d2, p2⟩, ⟨d3, p3⟩⟩ := hfit
    simp only [MutatorCall.run, ProvingPeriodInvariant, SetWPoStChallengeWindow,
      wrapInt64_of_inInt64 d0, wrapInt64_of_inInt64 d2, wrapInt64_of_inInt64 d3,
      wrapInt64_of_inInt64 p0, wrapInt64_of_inInt64 p2, wrapInt64_of_inInt64 p3, and_self]

/-- C2, instance: the relation holds in the sample state and still holds after
`SetWPoStChallengeWindow(30)` and after `SetSupportedProofTypes(32GiB)`. -/
theorem ProvingPeriodInvariant_run_witness :
    ProvingPeriodInvariant sampleExternals sampleState ∧
    ProvingPeriodInvariant sampleExternals
      ((MutatorCall.SetWPoStChallengeWindow 30).run sampleExternals sampleState) ∧
    ProvingPeriodInvariant sampleExternals
      ((MutatorCall.SetSupportedProofTypes [3]).run sampleExternals sampleState) :=
  ⟨by decide,
    ProvingPeriodInvariant_run sampleExternals sampleState (.SetWPoStChallengeWindow 30)
      (by decide) (by decide),
    ProvingPeriodInvariant_run sampleExternals sampleState (.SetSupportedProofTypes [3])
      trivial (by decide)⟩

/-! ## Winning PoSt look-back -/

/-- C3: for every network version `v`, `GetWinningPoStSectorSetLookback(v)` is
10 when `v <= network.Version3`, in particular at `Version3` itself, and is
`ChainFinality` when `v > network.Version3`; it takes no other value. -/
theorem GetWinningPoStSectorSetLookback_breakpoint (E : Externals) (v : NetworkVersion) :
    (v ≤ network_Version3 → GetWinningPoStSectorSetLookback E v = 10) ∧
    (network_Version3 < v → GetWinningPoStSectorSetLookback E v = E.ChainFinality) ∧
    GetWinningPoStSectorSetLookback E network_Version3 = 10 ∧
    (GetWinningPoStSectorSetLookback E v = 10 ∨
      GetWinningPoStSectorSetLookback E v = E.ChainFinality) := by
  unfold GetWinningPoStSectorSetLookback
  refine ⟨fun h => if_pos h, fun h => if_neg (not_le.mpr h), if_pos le_rfl, ?_⟩
  by_cases h : v ≤ network_Version3
  · exact Or.inl (if_pos h)
  · exact Or.inr (if_neg h)

/-- C3, instance: both sides of the breakpoint, with `ChainFinality` 900. -/
theorem GetWinningPoStSectorSetLookback_breakpoint_witness :
    GetWinningPoStSectorSetLookback sampleExternals 3 = 10 ∧
    GetWinningPoStSectorSetLookback sampleExternals 4 = 900 :=
  ⟨(GetWinningPoStSectorSetLookback_breakpoint sampleExternals 3).1 (by decide),
    (GetWinningPoStSectorSetLookback_breakpoint sampleExternals 4).2.1 (by decide)⟩

/-! ## Supported proof types -/

/-- C4: for every list of proof types and every starting state, after
`AddSupportedProofTypes(ts)` every type of `ts` is a member of each of the four
supported sets (`miner0.SupportedProofTypes`, `miner2.SupportedProofTypes`,
`miner3.PreCommitSealProofTypesV0`, `miner3.PreCommitSealProofTypesV7`), every
type that was a member of one of them before the call still is, and
`StackedDrg8GiBV1` is a member of `miner3.PreCommitSealProofTypesV7`, also when
it is not in `ts` and when `ts` is empty. -/
theorem AddSupportedProofTypes_members (E : Externals) (s : State)
    (ts : List RegisteredSealProof) :
    (∀ P ∈ ts,
      P ∈ (AddSupportedProofTypes E s ts).keys
        (AddSupportedProofTypes E s ts).miner0_SupportedProofTypes ∧
      P ∈ (AddSupportedProofTypes E s ts).keys
        (AddSupportedProofTypes E s ts).miner2_SupportedProofTypes ∧
      P ∈ (AddSupportedProofTypes E s ts).keys
        (AddSupportedProofTypes E s ts).miner3_PreCommitSealProofTypesV0 ∧
      P ∈ (AddSupportedProofTypes E s ts).keys
        (AddSupportedProofTypes E s ts).miner3_PreCommitSealProofTypesV7) ∧
    (∀ P,
      (P ∈ s.keys s.miner0_SupportedProofTypes →
        P ∈ (AddSupportedProofTypes E s ts).keys
          (AddSupportedProofTypes E s ts).miner0_SupportedProofTypes) ∧
      (P ∈ s.keys s.miner2_SupportedProofTypes →
        P ∈ (AddSupportedProofTypes E s ts).keys
          (AddSupportedProofTypes E s ts).miner2_SupportedProofTypes) ∧
      (P ∈ s.keys s.miner3_PreCommitSealProofTypesV0 →
        P ∈ (AddSupportedProofTypes E s ts).keys
          (AddSupportedProofTypes E s ts).miner3_PreCommitSealProofTypesV0) ∧
      (P ∈ s.keys s.miner3_PreCommitSealProofTypesV7 →
        P ∈ (AddSupportedProofTypes E s ts).keys
          (AddSupportedProofTypes E s ts).miner3_PreCommitSealProofTypesV7)) ∧
    E.StackedDrg8GiBV1 ∈ (AddSupportedProofTypes E s ts).keys
      (AddSupportedProofTypes E s ts).miner3_PreCommitSealProofTypesV7 := by
  obtain ⟨r0, r2, -, rV0, rV7⟩ := AddSupportedProofTypes_refs E s ts
  rw [r0, r2, rV0, rV7]
  simp only [mem_keys_AddSupportedProofTypes, State.writtenRefs, List.mem_cons,
    List.mem_singleton, List.mem_nil_iff, or_false]
  refine ⟨fun P hP => ?_, fun P => ?_, ?_⟩
  · simp only [hP, and_true, true_or, or_true, and_self]
  · exact ⟨fun h => Or.inl h, fun h => Or.inl h, fun h => Or.inl h, fun h => Or.inl h⟩
  · simp only [and_self, or_true]

/-- C4, instance: adding the empty list to the sample state puts the 8GiB type
into `miner3.PreCommitSealProofTypesV7` and into no other set. -/
theorem AddSupportedProofTypes_members_witness :
    sampleExternals.StackedDrg8GiBV1 ∈ (AddSupportedProofTypes sampleExternals sampleState []).keys
      (AddSupportedProofTypes sampleExternals sampleState []).miner3_PreCommitSealProofTypesV7 ∧
    (AddSupportedProofTypes sampleExternals sampleState []).keys
      (AddSupportedProofTypes sampleExternals sampleState []).miner0_SupportedProofTypes
        = [3, 4] :=
  ⟨(AddSupportedProofTypes_members sampleExternals sampleState []).2.2, by decide⟩

/-- C5, evaluation at the failing input: `SetSupportedProofTypes(32GiB)` on the
sample state, where the 8GiB type is 10 and the 32GiB type is 3.  The four
variables hold one and the same reference afterwards, and each of the four
supported sets, also those of v0 and v2 and `PreCommitSealProofTypesV0`, consists
of the 32GiB type and the 8GiB type, which was not requested. -/
theorem SetSupportedProofTypes_shared_map_evaluation :
    sampleExternals.StackedDrg8GiBV1 = 10 ∧ (10 : RegisteredSealProof) ∉ [(3 : Int)] ∧
    (SetSupportedProofTypes sampleExternals sampleState [3]).miner0_SupportedProofTypes
      = (SetSupportedProofTypes sampleExternals sampleState [3]).miner3_PreCommitSealProofTypesV7 ∧
    (SetSupportedProofTypes sampleExternals sampleState [3]).keys
      (SetSupportedProofTypes sampleExternals sampleState [3]).miner0_SupportedProofTypes
        = [3, 10] ∧
    (SetSupportedProofTypes sampleExternals sampleState [3]).keys
      (SetSupportedProofTypes sampleExternals sampleState [3]).miner2_SupportedProofTypes
        = [3, 10] ∧
    (SetSupportedProofTypes sampleExternals sampleState [3]).keys
      (SetSupportedProofTypes sampleExternals sampleState [3]).miner3_PreCommitSealProofTypesV0
        = [3, 10] ∧
    (SetSupportedProofTypes sampleExternals sampleState [3]).keys
      (SetSupportedProofTypes sampleExternals sampleState [3]).miner3_PreCommitSealProofTypesV7
        = [3, 10] := by
  decide

/-! ## Default sector size -/

/-- C6: for every non-empty supported set (`miner3.SupportedProofTypes`) all of
whose members have a defined sector size, `GetDefaultSectorSize` returns the
minimum sector size over the set: the result is the sector size of some member
and is at most the sector size of every member.  When the set consists of the
32GiB and the 64GiB type, the result is the size of the 32GiB type. -/
theorem GetDefaultSectorSize_minimum (E : Externals) (s : State)
    (hne : s.keys s.miner3_SupportedProofTypes ≠ [])
    (hdef : ∀ spt ∈ s.keys s.miner3_SupportedProofTypes, ∃ ss, E.SectorSize spt = .ok ss) :
    (∃ sz, GetDefaultSectorSize E s = .ok sz ∧
      (∃ spt ∈ s.keys s.miner3_SupportedProofTypes, E.SectorSize spt = .ok sz) ∧
      (∀ spt ∈ s.keys s.miner3_SupportedProofTypes, ∀ ss,
        E.SectorSize spt = .ok ss → sz ≤ ss)) ∧
    (∀ (p32 p64 : RegisteredSealProof) (size32 size64 : SectorSize),
      (∀ x, x ∈ s.keys s.miner3_SupportedProofTypes ↔ x = p32 ∨ x = p64) →
      E.SectorSize p32 = .ok size32 → E.SectorSize p64 = .ok size64 → size32 ≤ size64 →
      GetDefaultSectorSize E s = .ok size32) := by
  obtain ⟨sz, hget, ⟨spt, hspt, hsz⟩, hle⟩ := GetDefaultSectorSize_least E s hne hdef
  refine ⟨⟨sz, hget, ⟨spt, hspt, hsz⟩, hle⟩, ?_⟩
  intro p32 p64 size32 size64 hkeys h32 h64 hord
  have hle32 : sz ≤ size32 := hle p32 ((hkeys p32).mpr (Or.inl rfl)) size32 h32
  rcases (hkeys spt).mp hspt with h | h
  · rw [h, h32] at hsz
    have e : size32 = sz := by injection hsz
    rw [hget, e]
  · rw [h, h64] at hsz
    have e : size64 = sz := by injection hsz
    have e2 : sz = size32 := le_antisymm hle32 (e ▸ hord)
    rw [hget, e2]

/-- C6, instance: in the sample state the set holds the 32GiB type (3) and the
64GiB type (4), and the result is the 32GiB size, 34359738368 bytes. -/
theorem GetDefaultSectorSize_minimum_witness :
    sampleState.keys sampleState.miner3_SupportedProofTypes = [3, 4] ∧
    sampleExternals.SectorSize 3 = .ok 34359738368 ∧
    sampleExternals.SectorSize 4 = .ok 68719476736 ∧
    GetDefaultSectorSize sampleExternals sampleState = .ok 34359738368 :=
  ⟨rfl, rfl, rfl,
    (GetDefaultSectorSize_minimum sampleExternals sampleState (by decide)
      (by
        intro spt h
        have h2 : spt = 3 ∨ spt = 4 := by
          simpa [State.keys, sampleState] using h
        rcases h2 with rfl | rfl
        · exact ⟨34359738368, rfl⟩
        · exact ⟨68719476736, rfl⟩)).2 3 4 34359738368 68719476736
      (by
        intro x
        simp [State.keys, sampleState])
      rfl rfl (by decide)⟩

/-- C7: when the supported set read by `GetDefaultSectorSize` is empty, the call
panics with an index out of range (at `szs[0]`) and returns no sector size, not
zero and no other default. -/
theorem GetDefaultSectorSize_empty (E : Externals) (s : State)
    (hempty : s.keys s.miner3_SupportedProofTypes = []) :
    GetDefaultSectorSize E s = .error .indexOutOfRange ∧
    ∀ sz, GetDefaultSectorSize E s ≠ .ok sz := by
  have h : GetDefaultSectorSize E s = .error .indexOutOfRange := by
    unfold GetDefaultSectorSize
    rw [hempty]
    rfl
  refine ⟨h, fun sz hsz => ?_⟩
  rw [h] at hsz
  cases hsz

/-- C7, instance: the sample state with an empty `miner3.SupportedProofTypes`. -/
theorem GetDefaultSectorSize_empty_witness :
    sampleEmptyState.keys sampleEmptyState.miner3_SupportedProofTypes = [] ∧
    GetDefaultSectorSize sampleExternals sampleEmptyState = .error .indexOutOfRange :=
  ⟨rfl, (GetDefaultSectorSize_empty sampleExternals sampleEmptyState rfl).1⟩

/-! ## Maximum number of PoSt partitions -/

/-- C8: for every PoSt proof type `P` for which
`builtin3.PoStProofWindowPoStPartitionSectors(P)` succeeds with a non-zero value
`n`, `GetMaxPoStPartitions(P)` returns `miner3.AddressedSectorsMax / n` (integer
division) with a nil error.  The constant `miner3.AddressedSectorsMax` is taken
to be representable in Go's `int`. -/
theorem GetMaxPoStPartitions_quotient (E : Externals) (P : RegisteredPoStProof) (n : Nat)
    (hmax : inInt64 (E.miner3_AddressedSectorsMax : Int))
    (hlookup : E.PoStProofWindowPoStPartitionSectors P = (n, none)) (hn : n ≠ 0) :
    GetMaxPoStPartitions E P = .ok (((E.miner3_AddressedSectorsMax / n : Nat) : Int), none) := by
  have hq : inInt64 ((E.miner3_AddressedSectorsMax / n : Nat) : Int) := by
    have h1 : E.miner3_AddressedSectorsMax / n ≤ E.miner3_AddressedSectorsMax :=
      Nat.div_le_self _ _
    have h2 : ((E.miner3_AddressedSectorsMax / n : Nat) : Int)
        ≤ (E.miner3_AddressedSectorsMax : Int) := Int.ofNat_le.mpr h1
    have h3 : (0 : Int) ≤ ((E.miner3_AddressedSectorsMax / n : Nat) : Int) :=
      Int.ofNat_nonneg _
    unfold inInt64 at hmax ⊢
    exact ⟨le_trans (by decide) h3, lt_of_le_of_lt h2 hmax.2⟩
  unfold GetMaxPoStPartitions
  rw [hlookup]
  simp only [hn, if_false, wrapInt64_of_inInt64 hq]

/-- C8, instance: 25000 addressed sectors and 2349 sectors per partition give
10 partitions. -/
theorem GetMaxPoStPartitions_quotient_witness :
    sampleExternals.miner3_AddressedSectorsMax = 25000 ∧
    sampleExternals.PoStProofWindowPoStPartitionSectors 8 = (2349, none) ∧
    GetMaxPoStPartitions sampleExternals 8 = .ok (10, none) :=
  ⟨rfl, rfl,
    GetMaxPoStPartitions_quotient sampleExternals 8 2349 (by decide) rfl (by decide)⟩

/-- C9: for every PoSt proof type `P` for which the sectors-per-partition lookup
fails with error `err`, `GetMaxPoStPartitions(P)` returns that same error, with
count 0, and neither a success nor a division panic, whatever number accompanies
the error; and for every proof type, `GetMaxPoStPartitions` returns a non-nil
error exactly when the lookup fails. -/
theorem GetMaxPoStPartitions_error (E : Externals) (P : RegisteredPoStProof) (n : Nat)
    (err : GoError) (hlookup : E.PoStProofWindowPoStPartitionSectors P = (n, some err)) :
    GetMaxPoStPartitions E P = .ok (0, some err) ∧
    (∀ count, GetMaxPoStPartitions E P ≠ .ok (count, none)) ∧
    GetMaxPoStPartitions E P ≠ .error .divideByZero ∧
    (∀ Q, (∃ count e, GetMaxPoStPartitions E Q = .ok (count, some e)) ↔
      ∃ e, (E.PoStProofWindowPoStPartitionSectors Q).2 = some e) := by
  have h : GetMaxPoStPartitions E P = .ok (0, some err) := by
    unfold GetMaxPoStPartitions
    rw [hlookup]
  refine ⟨h, fun count hc => ?_, fun hc => ?_, fun Q => ?_⟩
  · rw [h] at hc
    cases hc
  · rw [h] at hc
    cases hc
  · unfold GetMaxPoStPartitions
    rcases hQ : E.PoStProofWindowPoStPartitionSectors Q with ⟨m, _ | e⟩
    · simp only
      constructor
      · rintro ⟨count, e, he⟩
        by_cases hm : m = 0
        · rw [if_pos hm] at he
          exact Except.noConfusion he
        · rw [if_neg hm] at he
          have h2 := congrArg Prod.snd (Except.ok.inj he)
          exact Option.noConfusion h2
      · rintro ⟨e, he⟩
        cases he
    · exact ⟨fun _ => ⟨e, rfl⟩, fun _ => ⟨0, e, rfl⟩⟩

/-- C9, instance: seal proof number 3 is no window PoSt proof type; the lookup
and `GetMaxPoStPartitions` both fail with "unsupported proof type". -/
theorem GetMaxPoStPartitions_error_witness :
    sampleExternals.PoStProofWindowPoStPartitionSectors 3 = (0, some "unsupported proof type") ∧
    GetMaxPoStPartitions sampleExternals 3 = .ok (0, some "unsupported proof type") :=
  ⟨rfl, (GetMaxPoStPartitions_error sampleExternals 3 0 "unsupported proof type" rfl).1⟩

/-! ## Maximum prove-commit duration -/

/-- C10, counterexample: proof type 7 has no entry in the v0 table of the sample
state, and `GetMaxProveCommitDuration(Version0, 7)` returns the duration 0
without failing. -/
theorem GetMaxProveCommitDuration_miss_returns_zero :
    sampleState.miner0_MaxSealDuration 7 = none ∧
    GetMaxProveCommitDuration sampleState actors_Version0 7 = .ok 0 := by
  decide

/-- C10, amended: for every supported revision (`Version0`, `Version2`,
`Version3`) and every seal proof type `t` without an entry in that revision's
table, `GetMaxProveCommitDuration` does not fail and returns 0, the zero value
of the Go map index expression. -/
theorem GetMaxProveCommitDuration_miss (s : State) (t : RegisteredSealProof) :
    (s.miner0_MaxSealDuration t = none →
      GetMaxProveCommitDuration s actors_Version0 t = .ok 0) ∧
    (s.miner2_MaxProveCommitDuration t = none →
      GetMaxProveCommitDuration s actors_Version2 t = .ok 0) ∧
    (s.miner3_MaxProveCommitDuration t = none →
      GetMaxProveCommitDuration s actors_Version3 t = .ok 0) := by
  refine ⟨fun h => ?_, fun h => ?_, fun h => ?_⟩
  · simp [GetMaxProveCommitDuration, DurationTable.index, h]
  · simp [GetMaxProveCommitDuration, DurationTable.index, h, actors_Version0, actors_Version2]
  · simp [GetMaxProveCommitDuration, DurationTable.index, h, actors_Version0, actors_Version2,
      actors_Version3]

/-- C10, instance: proof type 7 misses the three tables of the sample state. -/
theorem GetMaxProveCommitDuration_miss_witness :
    sampleState.miner2_MaxProveCommitDuration 7 = none ∧
    GetMaxProveCommitDuration sampleState actors_Version2 7 = .ok 0 ∧
    GetMaxProveCommitDuration sampleState actors_Version3 7 = .ok 0 :=
  ⟨rfl, (GetMaxProveCommitDuration_miss sampleState 7).2.1 rfl,
    (GetMaxProveCommitDuration_miss sampleState 7).2.2 rfl⟩

/-- C11: for every actors version `ver` and seal proof type `t` with entry `d`
in the selected table, `GetMaxProveCommitDuration(ver, t)` returns that entry:
of `miner0.MaxSealDuration` when `ver` is `Version0`, of
`miner2.MaxProveCommitDuration` when `ver` is `Version2`, of
`miner3.MaxProveCommitDuration` when `ver` is `Version3`, whatever the other two
tables hold; and for every `ver` outside these three it panics with
"unsupported actors version". -/
theorem GetMaxProveCommitDuration_dispatch (s : State) (ver : ActorsVersion)
    (t : RegisteredSealProof) :
    (∀ d, ver = actors_Version0 → s.miner0_MaxSealDuration t = some d →
      GetMaxProveCommitDuration s ver t = .ok d) ∧
    (∀ d, ver = actors_Version2 → s.miner2_MaxProveCommitDuration t = some d →
      GetMaxProveCommitDuration s ver t = .ok d) ∧
    (∀ d, ver = actors_Version3 → s.miner3_MaxProveCommitDuration t = some d →
      GetMaxProveCommitDuration s ver t = .ok d) ∧
    (ver ≠ actors_Version0 → ver ≠ actors_Version2 → ver ≠ actors_Version3 →
      GetMaxProveCommitDuration s ver t = .error (.message "unsupported actors version")) := by
  refine ⟨fun d hv h => ?_, fun d hv h => ?_, fun d hv h => ?_, fun h0 h2 h3 => ?_⟩
  · subst hv
    simp [GetMaxProveCommitDuration, DurationTable.index, h]
  · subst hv
    simp [GetMaxProveCommitDuration, DurationTable.index, h, actors_Version0, actors_Version2]
  · subst hv
    simp [GetMaxProveCommitDuration, DurationTable.index, h, actors_Version0, actors_Version2,
      actors_Version3]
  · simp [GetMaxProveCommitDuration, h0, h2, h3]

/-- C11, instance: a state whose three tables hold different durations for the
32GiB type (3); each version answers from its own table, and version 1 panics. -/
theorem GetMaxProveCommitDuration_dispatch_witness :
    GetMaxProveCommitDuration
      { sampleState with miner0_MaxSealDuration := fun _ => some 100
                         miner2_MaxProveCommitDuration := fun _ => some 200
                         miner3_MaxProveCommitDuration := fun _ => some 300 }
      actors_Version0 3 = .ok 100 ∧
    GetMaxProveCommitDuration
      { sampleState with miner0_MaxSealDuration := fun _ => some 100
                         miner2_MaxProveCommitDuration := fun _ => some 200
                         miner3_MaxProveCommitDuration := fun _ => some 300 }
      actors_Version2 3 = .ok 200 ∧
    GetMaxProveCommitDuration
      { sampleState with miner0_MaxSealDuration := fun _ => some 100
                         miner2_MaxProveCommitDuration := fun _ => some 200
                         miner3_MaxProveCommitDuration := fun _ => some 300 }
      actors_Version3 3 = .ok 300 ∧
    GetMaxProveCommitDuration sampleState 1 3
      = .error (.message "unsupported actors version") :=
  ⟨(GetMaxProveCommitDuration_dispatch _ actors_Version0 3).1 100 rfl rfl,
    (GetMaxProveCommitDuration_dispatch _ actors_Version2 3).2.1 200 rfl rfl,
    (GetMaxProveCommitDuration_dispatch _ actors_Version3 3).2.2.1 300 rfl rfl,
    (GetMaxProveCommitDuration_dispatch sampleState 1 3).2.2.2
      (by decide) (by decide) (by decide)⟩

/-! ## Deal provider collateral bounds -/

/-- C12: for every network version `nwVer` that `actors.VersionForNetwork`
resolves to `Version0`, `Version2` or `Version3`, and all other inputs,
`DealProviderCollateralBounds` returns the pair of that revision's own formula
applied to the same six inputs in the same order, the formula of `market0`
receiving `nwVer` in addition; two network versions resolved to the same one of
`Version2`, `Version3` give the same bounds. -/
theorem DealProviderCollateralBounds_dispatch (E : Externals) (size : PaddedPieceSize)
    (verified : Bool) (rawBytePower qaPower baselinePower : StoragePower)
    (circulatingFil : TokenAmount) (nwVer : NetworkVersion) :
    (E.VersionForNetwork nwVer = .ok actors_Version0 →
      DealProviderCollateralBounds E size verified rawBytePower qaPower baselinePower
        circulatingFil nwVer
      = .ok (E.market0_DealProviderCollateralBounds size verified rawBytePower qaPower
          baselinePower circulatingFil nwVer)) ∧
    (E.VersionForNetwork nwVer = .ok actors_Version2 →
      DealProviderCollateralBounds E size verified rawBytePower qaPower baselinePower
        circulatingFil nwVer
      = .ok (E.market2_DealProviderCollateralBounds size verified rawBytePower qaPower
          baselinePower circulatingFil)) ∧
    (E.VersionForNetwork nwVer = .ok actors_Version3 →
      DealProviderCollateralBounds E size verified rawBytePower qaPower baselinePower
        circulatingFil nwVer
      = .ok (E.market3_DealProviderCollateralBounds size verified rawBytePower qaPower
          baselinePower circulatingFil)) ∧
    (∀ (other : NetworkVersion) (R : ActorsVersion),
      R = actors_Version2 ∨ R = actors_Version3 →
      E.VersionForNetwork nwVer = .ok R → E.VersionForNetwork other = .ok R →
      DealProviderCollateralBounds E size verified rawBytePower qaPower baselinePower
        circulatingFil nwVer
      = DealProviderCollateralBounds E size verified rawBytePower qaPower baselinePower
        circulatingFil other) := by
  refine ⟨fun h => ?_, fun h => ?_, fun h => ?_, fun other R hR h1 h2 => ?_⟩
  · simp [DealProviderCollateralBounds, h]
  · simp [DealProviderCollateralBounds, h, actors_Version0, actors_Version2]
  · simp [DealProviderCollateralBounds, h, actors_Version0, actors_Version2, actors_Version3]
  · rcases hR with rfl | rfl
    · simp [DealProviderCollateralBounds, h1, h2, actors_Version0, actors_Version2]
    · simp [DealProviderCollateralBounds, h1, h2, actors_Version0, actors_Version2,
        actors_Version3]

/-- C12, instance: with the sample formulas, network version 2 (resolved to
`Version0`) gives the `market0` pair, which carries the network version, and
network versions 5 and 10 give the `market2` and `market3` pairs. -/
theorem DealProviderCollateralBounds_dispatch_witness :
    DealProviderCollateralBounds sampleExternals 1024 true 1 2 3 4 2 = .ok (2, 1024) ∧
    DealProviderCollateralBounds sampleExternals 1024 true 1 2 3 4 5
      = .ok (sampleExternals.market2_DealProviderCollateralBounds 1024 true 1 2 3 4) ∧
    DealProviderCollateralBounds sampleExternals 1024 true 1 2 3 4 10
      = .ok (sampleExternals.market3_DealProviderCollateralBounds 1024 true 1 2 3 4) :=
  ⟨(DealProviderCollateralBounds_dispatch sampleExternals 1024 true 1 2 3 4 2).1 rfl,
    (DealProviderCollateralBounds_dispatch sampleExternals 1024 true 1 2 3 4 5).2.1 rfl,
    (DealProviderCollateralBounds_dispatch sampleExternals 1024 true 1 2 3 4 10).2.2.1 rfl⟩

/-- C13: for every network version that `actors.VersionForNetwork` does not
resolve to `Version0`, `Version2` or `Version3` (the resolver panics, or returns
another version), `DealProviderCollateralBounds` panics for all other inputs and
returns no bounds, in particular not those of the `market0` formula: it passes
on the panic of the resolver, and panics with "unsupported network version"
when the resolver returns another version. -/
theorem DealProviderCollateralBounds_unsupported (E : Externals) (size : PaddedPieceSize)
    (verified : Bool) (rawBytePower qaPower baselinePower : StoragePower)
    (circulatingFil : TokenAmount) (nwVer : NetworkVersion)
    (hunres : ∀ R, E.VersionForNetwork nwVer = .ok R →
      R ≠ actors_Version0 ∧ R ≠ actors_Version2 ∧ R ≠ actors_Version3) :
    (∀ bounds, DealProviderCollateralBounds E size verified rawBytePower qaPower
      baselinePower circulatingFil nwVer ≠ .ok bounds) ∧
    (∀ p, E.VersionForNetwork nwVer = .error p →
      DealProviderCollateralBounds E size verified rawBytePower qaPower baselinePower
        circulatingFil nwVer = .error p) ∧
    (∀ R, E.VersionForNetwork nwVer = .ok R →
      DealProviderCollateralBounds E size verified rawBytePower qaPower baselinePower
        circulatingFil nwVer = .error (.message "unsupported network version")) := by
  have hok : ∀ R, E.VersionForNetwork nwVer = .ok R →
      DealProviderCollateralBounds E size verified rawBytePower qaPower baselinePower
        circulatingFil nwVer = .error (.message "unsupported network version") := by
    intro R hR
    obtain ⟨h0, h2, h3⟩ := hunres R hR
    simp [DealProviderCollateralBounds, hR, h0, h2, h3]
  have herr : ∀ p, E.VersionForNetwork nwVer = .error p →
      DealProviderCollateralBounds E size verified rawBytePower qaPower baselinePower
        circulatingFil nwVer = .error p := by
    intro p hp
    simp [DealProviderCollateralBounds, hp]
  refine ⟨fun bounds hb => ?_, herr, hok⟩
  cases hv : E.VersionForNetwork nwVer with
  | error p =>
    rw [herr p hv] at hb
    exact Except.noConfusion hb
  | ok R =>
    rw [hok R hv] at hb
    exact Except.noConfusion hb

/-- C13, instance: the sample resolver panics on network version 12, and so
does `DealProviderCollateralBounds`. -/
theorem DealProviderCollateralBounds_unsupported_witness :
    sampleExternals.VersionForNetwork 12 = .error (.message "unsupported network version") ∧
    DealProviderCollateralBounds sampleExternals 1024 true 1 2 3 4 12
      = .error (.message "unsupported network version") :=
  ⟨rfl,
    (DealProviderCollateralBounds_unsupported sampleExternals 1024 true 1 2 3 4 12
      (fun _ h => Except.noConfusion h)).2.1 _ rfl⟩

/-! ## Pre-commit challenge delay -/

/-- Every mutator call keeps the three pre-commit challenge delays equal. -/
theorem delaysAgree_run (E : Externals) (s : State) (c : MutatorCall) (h : delaysAgree s) :
    delaysAgree (c.run E s) := by
  cases c with
  | SetSupportedProofTypes types =>
    obtain ⟨m, hm⟩ := SetSupportedProofTypes_eq E s types
    simp only [MutatorCall.run, hm]
    exact h
  | AddSupportedProofTypes types =>
    obtain ⟨m, hm⟩ := AddSupportedProofTypes_eq E s types
    simp only [MutatorCall.run, hm]
    exact h
  | SetPreCommitChallengeDelay delay => exact ⟨rfl, rfl⟩
  | SetConsensusMinerMinPower p => exact h
  | SetMinVerifiedDealSize size => exact h
  | SetWPoStChallengeWindow period => exact h

theorem delaysAgree_runAll (E : Externals) (calls : List MutatorCall) (s : State)
    (h : delaysAgree s) : delaysAgree (MutatorCall.runAll E s calls) := by
  induction calls generalizing s with
  | nil => exact h
  | cons c cs ih => exact ih (c.run E s) (delaysAgree_run E s c h)

/-- C14: for every delay `d` and every starting state, after
`SetPreCommitChallengeDelay(d)` the pre-commit challenge delay of each of
`miner0`, `miner2`, `miner3` is `d` and `GetPreCommitChallengeDelay()` returns
`d`; and in every state reached by mutator calls from a state in which the three
revisions agree, `GetPreCommitChallengeDelay`, which reads `miner0` only,
returns the value held by every revision. -/
theorem PreCommitChallengeDelay_round_trip (E : Externals) (s : State) (d : ChainEpoch)
    (calls : List MutatorCall) :
    ((SetPreCommitChallengeDelay s d).miner0_PreCommitChallengeDelay = d ∧
      (SetPreCommitChallengeDelay s d).miner2_PreCommitChallengeDelay = d ∧
      (SetPreCommitChallengeDelay s d).miner3_PreCommitChallengeDelay = d ∧
      GetPreCommitChallengeDelay (SetPreCommitChallengeDelay s d) = d) ∧
    (delaysAgree s →
      GetPreCommitChallengeDelay (MutatorCall.runAll E s calls)
        = (MutatorCall.runAll E s calls).miner0_PreCommitChallengeDelay ∧
      GetPreCommitChallengeDelay (MutatorCall.runAll E s calls)
        = (MutatorCall.runAll E s calls).miner2_PreCommitChallengeDelay ∧
      GetPreCommitChallengeDelay (MutatorCall.runAll E s calls)
        = (MutatorCall.runAll E s calls).miner3_PreCommitChallengeDelay) := by
  refine ⟨⟨rfl, rfl, rfl, rfl⟩, fun h => ?_⟩
  obtain ⟨h1, h2⟩ := delaysAgree_runAll E calls s h
  exact ⟨rfl, h1, h1.trans h2⟩

/-- C14, instance: from the sample state, where every revision holds 150, the
calls `SetWPoStChallengeWindow(30)`, `SetPreCommitChallengeDelay(7)`,
`SetSupportedProofTypes(32GiB)` lead to a state where the query returns 7, the
value of `miner3`. -/
theorem PreCommitChallengeDelay_round_trip_witness :
    delaysAgree sampleState ∧
    GetPreCommitChallengeDelay (MutatorCall.runAll sampleExternals sampleState
      [.SetWPoStChallengeWindow 30, .SetPreCommitChallengeDelay 7,
        .SetSupportedProofTypes [3]]) = 7 ∧
    GetPreCommitChallengeDelay (MutatorCall.runAll sampleExternals sampleState
      [.SetWPoStChallengeWindow 30, .SetPreCommitChallengeDelay 7,
        .SetSupportedProofTypes [3]])
      = (MutatorCall.runAll sampleExternals sampleState
          [.SetWPoStChallengeWindow 30, .SetPreCommitChallengeDelay 7,
            .SetSupportedProofTypes [3]]).miner3_PreCommitChallengeDelay :=
  ⟨by decide, by decide,
    ((PreCommitChallengeDelay_round_trip sampleExternals sampleState 0
      [.SetWPoStChallengeWindow 30, .SetPreCommitChallengeDelay 7,
        .SetSupportedProofTypes [3]]).2 (by decide)).2.2⟩

/-! ## Consensus miner minimum power -/

/-- C15: for every power `p` and every starting state, after
`SetConsensusMinerMinPower(p)` the value `power0.ConsensusMinerMinPower` is `p`,
every policy entry of `builtin2.SealProofPolicies` and every policy entry of
`builtin3.PoStProofPolicies` has `ConsensusMinerMinPower` equal to `p`, and both
tables have the keys they had. -/
theorem SetConsensusMinerMinPower_all (s : State) (p : StoragePower) :
    (SetConsensusMinerMinPower s p).power0_ConsensusMinerMinPower = p ∧
    (∀ kv ∈ (SetConsensusMinerMinPower s p).builtin2_SealProofPolicies,
      kv.2.ConsensusMinerMinPower = p) ∧
    (∀ kv ∈ (SetConsensusMinerMinPower s p).builtin3_PoStProofPolicies,
      kv.2.ConsensusMinerMinPower = p) ∧
    (SetConsensusMinerMinPower s p).builtin2_SealProofPolicies.map Prod.fst
      = s.builtin2_SealProofPolicies.map Prod.fst ∧
    (SetConsensusMinerMinPower s p).builtin3_PoStProofPolicies.map Prod.fst
      = s.builtin3_PoStProofPolicies.map Prod.fst := by
  refine ⟨rfl, fun kv hkv => ?_, fun kv hkv => ?_, ?_, ?_⟩
  · simp only [SetConsensusMinerMinPower, List.mem_map] at hkv
    obtain ⟨old, -, rfl⟩ := hkv
    rfl
  · simp only [SetConsensusMinerMinPower, List.mem_map] at hkv
    obtain ⟨old, -, rfl⟩ := hkv
    rfl
  · simp only [SetConsensusMinerMinPower, List.map_map]
    rfl
  · simp only [SetConsensusMinerMinPower, List.map_map]
    rfl

/-- C15, instance: in the sample state the two entries of each table hold
different thresholds; after `SetConsensusMinerMinPower(2048)` all hold 2048. -/
theorem SetConsensusMinerMinPower_all_witness :
    sampleState.builtin3_PoStProofPolicies.map (fun kv => kv.2.ConsensusMinerMinPower)
      = [10995116277760, 21990232555520] ∧
    (SetConsensusMinerMinPower sampleState 2048).builtin2_SealProofPolicies.map
      (fun kv => (kv.1, kv.2.ConsensusMinerMinPower)) = [(3, 2048), (4, 2048)] ∧
    (SetConsensusMinerMinPower sampleState 2048).builtin3_PoStProofPolicies.map
      (fun kv => (kv.1, kv.2.ConsensusMinerMinPower)) = [(8, 2048), (9, 2048)] ∧
    (SetConsensusMinerMinPower sampleState 2048).power0_ConsensusMinerMinPower = 2048 :=
  ⟨by decide, by decide, by decide, (SetConsensusMinerMinPower_all sampleState 2048).1⟩

/-! ## Map objects that a call does not write -/

theorem keys_assign_of_ne (s : State) (r a : Ref) (t : RegisteredSealProof) (h : a ≠ r) :
    (s.assign r t).keys a = s.keys a := by
  unfold State.assign State.keys
  simp only [h, if_false]

theorem keys_step_of_not_mem (s : State) (t : RegisteredSealProof) (a : Ref)
    (h : a ∉ s.writtenRefs) : (AddSupportedProofTypes.step s t).keys a = s.keys a := by
  simp only [State.writtenRefs, List.mem_cons, List.mem_singleton, List.mem_nil_iff, or_false,
    not_or] at h
  obtain ⟨h0, h2, hV0, hV7⟩ := h
  unfold AddSupportedProofTypes.step
  exact (keys_assign_of_ne _ _ _ _ hV7).trans ((keys_assign_of_ne _ _ _ _ hV0).trans
    ((keys_assign_of_ne _ _ _ _ h2).trans (keys_assign_of_ne _ _ _ _ h0)))

theorem keys_foldl_step_of_not_mem (types : List RegisteredSealProof) (s : State) (a : Ref)
    (h : a ∉ s.writtenRefs) :
    (types.foldl AddSupportedProofTypes.step s).keys a = s.keys a := by
  induction types generalizing s with
  | nil => rfl
  | cons t ts ih =>
    rw [List.foldl_cons, ih (AddSupportedProofTypes.step s t) (by rwa [writtenRefs_step]),
      keys_step_of_not_mem s t a h]

/-- A map object that none of the four written variables refers to is left as
it is by `AddSupportedProofTypes`, with its keys in the same order. -/
theorem keys_AddSupportedProofTypes_of_not_mem (E : Externals) (s : State)
    (types : List RegisteredSealProof) (a : Ref) (h : a ∉ s.writtenRefs) :
    (AddSupportedProofTypes E s types).keys a = s.keys a := by
  obtain ⟨m, hm⟩ := foldl_step_eq types s
  have hV7 : a ≠ s.miner3_PreCommitSealProofTypesV7 := by
    intro e
    apply h
    simp [State.writtenRefs, e]
  unfold AddSupportedProofTypes
  simp only
  rw [keys_assign_of_ne _ _ _ _ (by rw [hm]; exact hV7), keys_foldl_step_of_not_mem types s a h]

/-- Every map object that existed before `SetSupportedProofTypes` is left as it
is by the call, with its keys in the same order. -/
theorem keys_SetSupportedProofTypes_of_ne (E : Externals) (s : State)
    (types : List RegisteredSealProof) (a : Ref) (h : a ≠ s.freshRef) :
    (SetSupportedProofTypes E s types).keys a = s.keys a := by
  unfold SetSupportedProofTypes State.makeMap
  simp only
  rw [keys_AddSupportedProofTypes_of_not_mem]
  · simp only [State.keys, h, if_false]
  · simp only [State.writtenRefs, List.mem_cons, List.mem_singleton, List.mem_nil_iff,
      or_false, or_self]
    exact h

/-- The call `SetSupportedProofTypes` does not change what `GetDefaultSectorSize`
returns: the query reads `miner3.SupportedProofTypes`, which the call neither
assigns nor writes through. -/
theorem GetDefaultSectorSize_SetSupportedProofTypes (E : Externals) (s : State)
    (types : List RegisteredSealProof) :
    GetDefaultSectorSize E (SetSupportedProofTypes E s types) = GetDefaultSectorSize E s := by
  obtain ⟨-, -, r3, -, -⟩ := SetSupportedProofTypes_refs E s types
  obtain ⟨-, -, hlt, -, -⟩ := freshRef_gt s
  unfold GetDefaultSectorSize
  rw [r3, keys_SetSupportedProofTypes_of_ne E s types _ (Nat.ne_of_lt hlt)]

/-! ## Enumeration order of the supported set -/

/-- Two slices with the same elements in different orders are equal once
sorted. -/
theorem sortSlice_perm {l1 l2 : List SectorSize} (h : l1.Perm l2) :
    sortSlice l1 = sortSlice l2 := by
  have p1 : (sortSlice l1).Perm l1 := List.perm_insertionSort _ l1
  have p2 : (sortSlice l2).Perm l2 := List.perm_insertionSort _ l2
  have s1 : (sortSlice l1).Sorted (fun a b => a ≤ b) := List.sorted_insertionSort _ l1
  have s2 : (sortSlice l2).Sorted (fun a b => a ≤ b) := List.sorted_insertionSort _ l2
  exact List.eq_of_perm_of_sorted (p1.trans (h.trans p2.symm)) s1 s2

/-- When the loop ends without a panic, every key has a sector size and the
slice has grown by the sizes of the keys, in order. -/
theorem GetDefaultSectorSize_loop_inv (E : Externals) (keys : List RegisteredSealProof)
    (szs out : List SectorSize) (h : GetDefaultSectorSize.loop E keys szs = .ok out) :
    ∃ zs : List SectorSize, out = szs ++ zs ∧ keys.map E.SectorSize = zs.map Except.ok := by
  induction keys generalizing szs with
  | nil =>
    simp only [GetDefaultSectorSize.loop] at h
    exact ⟨[], by rw [List.append_nil]; exact (Except.ok.inj h).symm, rfl⟩
  | cons k ks ih =>
    cases hk : E.SectorSize k with
    | error e =>
      simp only [GetDefaultSectorSize.loop, hk] at h
      exact Except.noConfusion h
    | ok z =>
      simp only [GetDefaultSectorSize.loop, hk] at h
      obtain ⟨zs, hout, hmap⟩ := ih (szs ++ [z]) h
      refine ⟨z :: zs, ?_, ?_⟩
      · rw [hout, List.append_assoc, List.singleton_append]
      · simp only [List.map_cons, hk, hmap]

theorem map_sizeOrZero (zs : List SectorSize) :
    (zs.map (Except.ok : SectorSize → Except GoError SectorSize)).map sizeOrZero = zs := by
  induction zs with
  | nil => rfl
  | cons z zs ih => simp only [List.map_cons, sizeOrZero, ih]

/-- A sector size returned for one enumeration order of the supported set is
returned for every other enumeration order. -/
theorem GetDefaultSectorSize_perm_ok (E : Externals) (s1 s2 : State)
    (hperm : (s1.keys s1.miner3_SupportedProofTypes).Perm
      (s2.keys s2.miner3_SupportedProofTypes))
    (sz : SectorSize) (h : GetDefaultSectorSize E s1 = .ok sz) :
    GetDefaultSectorSize E s2 = .ok sz := by
  unfold GetDefaultSectorSize at h
  cases hl : GetDefaultSectorSize.loop E (s1.keys s1.miner3_SupportedProofTypes) [] with
  | error p =>
    rw [hl] at h
    exact Except.noConfusion h
  | ok out =>
    rw [hl] at h
    obtain ⟨zs1, hout, hmap1⟩ := GetDefaultSectorSize_loop_inv E _ [] out hl
    rw [List.nil_append] at hout
    subst hout
    have hdef2 : ∀ spt ∈ s2.keys s2.miner3_SupportedProofTypes,
        ∃ ss, E.SectorSize spt = .ok ss := by
      intro spt hspt
      have h1 : E.SectorSize spt ∈ (s1.keys s1.miner3_SupportedProofTypes).map E.SectorSize :=
        List.mem_map_of_mem _ (hperm.symm.subset hspt)
      rw [hmap1, List.mem_map] at h1
      obtain ⟨z, -, hz⟩ := h1
      exact ⟨z, hz.symm⟩
    obtain ⟨zs2, hloop2, hmap2⟩ := GetDefaultSectorSize_loop_ok E _ [] hdef2
    rw [List.nil_append] at hloop2
    have hzs : out.Perm zs2 := by
      have h3 := (hperm.map E.SectorSize).map sizeOrZero
      rwa [hmap1, hmap2, map_sizeOrZero, map_sizeOrZero] at h3
    unfold GetDefaultSectorSize
    rw [hloop2]
    simp only
    rw [← sortSlice_perm hzs]
    exact h

/-! ## The shared map of `SetSupportedProofTypes` -/

theorem sharesOneMap_SetSupportedProofTypes (E : Externals) (s : State)
    (types : List RegisteredSealProof) : sharesOneMap (SetSupportedProofTypes E s types) := by
  obtain ⟨r0, r2, -, rV0, rV7⟩ := SetSupportedProofTypes_refs E s types
  unfold sharesOneMap
  rw [r0, r2, rV0, rV7]
  exact ⟨rfl, rfl, rfl⟩

/-- Once the four variables refer to one map object, they do so after every
mutator call. -/
theorem sharesOneMap_run (E : Externals) (s : State) (c : MutatorCall) (h : sharesOneMap s) :
    sharesOneMap (c.run E s) := by
  cases c with
  | SetSupportedProofTypes types => exact sharesOneMap_SetSupportedProofTypes E s types
  | AddSupportedProofTypes types =>
    obtain ⟨r0, r2, -, rV0, rV7⟩ := AddSupportedProofTypes_refs E s types
    unfold sharesOneMap
    simp only [MutatorCall.run]
    rw [r0, r2, rV0, rV7]
    exact h
  | SetPreCommitChallengeDelay delay => exact h
  | SetConsensusMinerMinPower p => exact h
  | SetMinVerifiedDealSize size => exact h
  | SetWPoStChallengeWindow period => exact h

theorem sharesOneMap_runAll (E : Externals) (calls : List MutatorCall) (s : State)
    (h : sharesOneMap s) : sharesOneMap (MutatorCall.runAll E s calls) := by
  induction calls generalizing s with
  | nil => exact h
  | cons c cs ih => exact ih (c.run E s) (sharesOneMap_run E s c h)

theorem writtenRefs_eq_of_sharesOneMap (s : State) (h : sharesOneMap s) (r : Ref)
    (hr : r ∈ s.writtenRefs) : r = s.miner3_PreCommitSealProofTypesV7 := by
  obtain ⟨h0, h2, hV0⟩ := h
  simp only [State.writtenRefs, List.mem_cons, List.mem_singleton, List.mem_nil_iff,
    or_false] at hr
  rcases hr with e | e | e | e
  · exact e.trans h0
  · exact e.trans h2
  · exact e.trans hV0
  · exact e

/-! ## Determinism of the queries -/

/-- C16: for a fixed state and fixed arguments each query
(`GetMaxProveCommitDuration`, `DealProviderCollateralBounds`,
`GetWinningPoStSectorSetLookback`, `GetMaxSectorExpirationExtension`,
`GetPreCommitChallengeDelay`, `GetMaxPoStPartitions`, `GetDefaultSectorSize`)
leaves the state unchanged and gives the same result when called again; and
`GetDefaultSectorSize` returns the same sector size for every enumeration order
of the supported set: two permutations of a list of sector sizes have the same
first element after sorting, a size is returned for one order exactly when it is
returned for the other, and the call panics for one order exactly when it
panics for the other. -/
theorem queries_deterministic (E : Externals) (s : State) (q : QueryCall) :
    (q.run E s).2 = s ∧
    (q.run E (q.run E s).2).1 = (q.run E s).1 ∧
    (∀ l1 l2 : List SectorSize, l1.Perm l2 → (sortSlice l1).head? = (sortSlice l2).head?) ∧
    (∀ other : State,
      (s.keys s.miner3_SupportedProofTypes).Perm
        (other.keys other.miner3_SupportedProofTypes) →
      (∀ sz, GetDefaultSectorSize E s = .ok sz ↔ GetDefaultSectorSize E other = .ok sz) ∧
      ((∃ p, GetDefaultSectorSize E s = .error p) ↔
        ∃ p, GetDefaultSectorSize E other = .error p)) := by
  have hval : ∀ s1 s2 : State,
      (s1.keys s1.miner3_SupportedProofTypes).Perm (s2.keys s2.miner3_SupportedProofTypes) →
      (∃ p, GetDefaultSectorSize E s1 = .error p) →
      ∃ p, GetDefaultSectorSize E s2 = .error p := by
    intro s1 s2 hperm ⟨p, hp⟩
    cases h2 : GetDefaultSectorSize E s2 with
    | error p2 => exact ⟨p2, rfl⟩
    | ok sz =>
      have h1 := GetDefaultSectorSize_perm_ok E s2 s1 hperm.symm sz h2
      rw [hp] at h1
      exact Except.noConfusion h1
  refine ⟨?_, ?_, fun l1 l2 h => by rw [sortSlice_perm h], fun other hperm => ⟨fun sz => ?_, ?_⟩⟩
  · cases q <;> rfl
  · cases q <;> rfl
  · exact ⟨GetDefaultSectorSize_perm_ok E s other hperm sz,
      GetDefaultSectorSize_perm_ok E other s hperm.symm sz⟩
  · exact ⟨hval s other hperm, hval other s hperm.symm⟩

/-- C16, instance: the sample supported set enumerated as 32GiB, 64GiB and as
64GiB, 32GiB gives the 32GiB size both times, and the query leaves the sample
state as it is. -/
theorem queries_deterministic_witness :
    (QueryCall.GetDefaultSectorSize.run sampleExternals sampleState).1
      = .sectorSize (.ok 34359738368) ∧
    GetDefaultSectorSize sampleExternals { sampleState with maps := fun _ => [4, 3] }
      = .ok 34359738368 :=
  ⟨by decide,
    (((queries_deterministic sampleExternals sampleState .GetDefaultSectorSize).2.2.2
      { sampleState with maps := fun _ => [4, 3] } (List.Perm.swap 4 3 [])).1
        34359738368).mp (by decide)⟩

/-- C17, evaluation at the failing input, with the general fact behind it: for
every state and every list of proof types, `GetDefaultSectorSize` returns after
`SetSupportedProofTypes(ts)` what it returned before, because the call does not
assign `miner3.SupportedProofTypes`.  In the sample state, whose supported set
holds the 32GiB and 64GiB types, `SetSupportedProofTypes(2KiB)` is followed by
the default sector size of 32GiB, not by the 2KiB size 2048. -/
theorem GetDefaultSectorSize_after_SetSupportedProofTypes :
    (∀ (E : Externals) (s : State) (ts : List RegisteredSealProof),
      GetDefaultSectorSize E (SetSupportedProofTypes E s ts) = GetDefaultSectorSize E s) ∧
    sampleExternals.SectorSize 0 = .ok 2048 ∧
    GetDefaultSectorSize sampleExternals sampleState = .ok 34359738368 ∧
    GetDefaultSectorSize sampleExternals (SetSupportedProofTypes sampleExternals sampleState [0])
      = .ok 34359738368 :=
  ⟨GetDefaultSectorSize_SetSupportedProofTypes, by decide, by decide, by decide⟩

/-- C18: `SetSupportedProofTypes` assigns one newly made map to
`miner0.SupportedProofTypes`, `miner2.SupportedProofTypes`,
`miner3.PreCommitSealProofTypesV0` and `miner3.PreCommitSealProofTypesV7`.  After
`SetSupportedProofTypes(ts)` the four variables refer to one map object, each of
the four sets consists of the types of `ts` and `StackedDrg8GiBV1`; after any
later mutator calls, `AddSupportedProofTypes` among them, the four variables
still refer to one object, so the four sets are identical and an insertion made
through one variable is visible through all; and a directly following
`AddSupportedProofTypes(more)` leaves each set with the types of `ts`, of `more`
and `StackedDrg8GiBV1`. -/
theorem SetSupportedProofTypes_one_shared_map (E : Externals) (s : State)
    (ts : List RegisteredSealProof) :
    sharesOneMap (SetSupportedProofTypes E s ts) ∧
    (∀ r ∈ (SetSupportedProofTypes E s ts).writtenRefs, ∀ x,
      x ∈ (SetSupportedProofTypes E s ts).keys r ↔ x ∈ ts ∨ x = E.StackedDrg8GiBV1) ∧
    (∀ calls : List MutatorCall,
      sharesOneMap (MutatorCall.runAll E (SetSupportedProofTypes E s ts) calls) ∧
      (∀ r ∈ (MutatorCall.runAll E (SetSupportedProofTypes E s ts) calls).writtenRefs,
        (MutatorCall.runAll E (SetSupportedProofTypes E s ts) calls).keys r
          = (MutatorCall.runAll E (SetSupportedProofTypes E s ts) calls).keys
              (MutatorCall.runAll E (SetSupportedProofTypes E s ts)
                calls).miner3_PreCommitSealProofTypesV7) ∧
      (∀ r1 ∈ (MutatorCall.runAll E (SetSupportedProofTypes E s ts) calls).writtenRefs,
        ∀ r2 ∈ (MutatorCall.runAll E (SetSupportedProofTypes E s ts) calls).writtenRefs,
        ∀ t, t ∈ ((MutatorCall.runAll E (SetSupportedProofTypes E s ts) calls).assign
          r1 t).keys r2)) ∧
    (∀ more : List RegisteredSealProof,
      ∀ r ∈ (AddSupportedProofTypes E (SetSupportedProofTypes E s ts) more).writtenRefs, ∀ x,
        x ∈ (AddSupportedProofTypes E (SetSupportedProofTypes E s ts) more).keys r ↔
          x ∈ ts ∨ x ∈ more ∨ x = E.StackedDrg8GiBV1) := by
  have hshare := sharesOneMap_SetSupportedProofTypes E s ts
  obtain ⟨-, -, -, -, rV7⟩ := SetSupportedProofTypes_refs E s ts
  have hset : ∀ r ∈ (SetSupportedProofTypes E s ts).writtenRefs, ∀ x,
      x ∈ (SetSupportedProofTypes E s ts).keys r ↔ x ∈ ts ∨ x = E.StackedDrg8GiBV1 := by
    intro r hr x
    rw [writtenRefs_eq_of_sharesOneMap _ hshare r hr, rV7, mem_keys_SetSupportedProofTypes,
      if_pos rfl]
  refine ⟨hshare, hset, fun calls => ?_, fun more r hr x => ?_⟩
  · have hall := sharesOneMap_runAll E calls _ hshare
    refine ⟨hall, fun r hr => ?_, fun r1 h1 r2 h2 t => ?_⟩
    · rw [writtenRefs_eq_of_sharesOneMap _ hall r hr]
    · rw [writtenRefs_eq_of_sharesOneMap _ hall r1 h1,
        writtenRefs_eq_of_sharesOneMap _ hall r2 h2, mem_keys_assign]
      exact Or.inr ⟨rfl, rfl⟩
  · have hrefs : (AddSupportedProofTypes E (SetSupportedProofTypes E s ts) more).writtenRefs
        = (SetSupportedProofTypes E s ts).writtenRefs := by
      obtain ⟨a0, a2, -, aV0, aV7⟩ :=
        AddSupportedProofTypes_refs E (SetSupportedProofTypes E s ts) more
      unfold State.writtenRefs
      rw [a0, a2, aV0, aV7]
    rw [hrefs] at hr
    have hr7 := writtenRefs_eq_of_sharesOneMap _ hshare r hr
    rw [mem_keys_AddSupportedProofTypes, hset r hr x]
    constructor
    · rintro (h | ⟨-, h⟩ | ⟨-, h⟩)
      · rcases h with h | h
        · exact Or.inl h
        · exact Or.inr (Or.inr h)
      · exact Or.inr (Or.inl h)
      · exact Or.inr (Or.inr h)
    · rintro (h | h | h)
      · exact Or.inl (Or.inl h)
      · exact Or.inr (Or.inl ⟨hr, h⟩)
      · exact Or.inl (Or.inr h)

/-- C18, instance: on the sample state, `SetSupportedProofTypes(32GiB)` followed
by `AddSupportedProofTypes(64GiB)` leaves the one shared set with the 32GiB, the
8GiB and the 64GiB type behind each of the four variables. -/
theorem SetSupportedProofTypes_one_shared_map_witness :
    sharesOneMap (MutatorCall.runAll sampleExternals
      (SetSupportedProofTypes sampleExternals sampleState [3])
      [.AddSupportedProofTypes [4]]) ∧
    (AddSupportedProofTypes sampleExternals
      (SetSupportedProofTypes sampleExternals sampleState [3]) [4]).keys
      (AddSupportedProofTypes sampleExternals
        (SetSupportedProofTypes sampleExternals sampleState [3]) [4]).miner0_SupportedProofTypes
      = [3, 10, 4] :=
  ⟨((SetSupportedProofTypes_one_shared_map sampleExternals sampleState [3]).2.2.1
      [.AddSupportedProofTypes [4]]).1,
    by decide⟩

/-! ## Frame of the scalar mutators -/

/-- C19: each scalar mutator writes only its own field in every revision.  The
state after `SetPreCommitChallengeDelay` differs from the state before in the
three `PreCommitChallengeDelay` values only; after `SetMinVerifiedDealSize(size)`
in the three `MinVerifiedDealSize` values only, each of which is `size`; after
`SetConsensusMinerMinPower` in `power0.ConsensusMinerMinPower` and the
`ConsensusMinerMinPower` field of the entries of the two policy tables only,
whose keys and other fields stay; after `SetWPoStChallengeWindow` in the three
`WPoStChallengeWindow` and the three `WPoStProvingPeriod` values only.  Put back
the old values of the named fields and the state is the state before the call,
with the same map objects, supported sets and duration tables.  The numbers of
deadlines `WPoStPeriodDeadlines` are constants of `Externals`, which no call
returns or changes. -/
theorem scalar_mutators_frame (E : Externals) (s : State) (delay W : ChainEpoch)
    (size p : StoragePower) :
    { SetPreCommitChallengeDelay s delay with
        miner0_PreCommitChallengeDelay := s.miner0_PreCommitChallengeDelay
        miner2_PreCommitChallengeDelay := s.miner2_PreCommitChallengeDelay
        miner3_PreCommitChallengeDelay := s.miner3_PreCommitChallengeDelay } = s ∧
    ({ SetMinVerifiedDealSize s size with
        verifreg0_MinVerifiedDealSize := s.verifreg0_MinVerifiedDealSize
        verifreg2_MinVerifiedDealSize := s.verifreg2_MinVerifiedDealSize
        verifreg3_MinVerifiedDealSize := s.verifreg3_MinVerifiedDealSize } = s ∧
      (SetMinVerifiedDealSize s size).verifreg0_MinVerifiedDealSize = size ∧
      (SetMinVerifiedDealSize s size).verifreg2_MinVerifiedDealSize = size ∧
      (SetMinVerifiedDealSize s size).verifreg3_MinVerifiedDealSize = size) ∧
    ({ SetConsensusMinerMinPower s p with
        power0_ConsensusMinerMinPower := s.power0_ConsensusMinerMinPower
        builtin2_SealProofPolicies := s.builtin2_SealProofPolicies
        builtin3_PoStProofPolicies := s.builtin3_PoStProofPolicies } = s ∧
      (SetConsensusMinerMinPower s p).builtin2_SealProofPolicies.map
          (fun kv => (kv.1, kv.2.WindowPoStPartitionSectors, kv.2.SectorMaxLifetime))
        = s.builtin2_SealProofPolicies.map
          (fun kv => (kv.1, kv.2.WindowPoStPartitionSectors, kv.2.SectorMaxLifetime)) ∧
      (SetConsensusMinerMinPower s p).builtin3_PoStProofPolicies.map
          (fun kv => (kv.1, kv.2.WindowPoStPartitionSectors))
        = s.builtin3_PoStProofPolicies.map
          (fun kv => (kv.1, kv.2.WindowPoStPartitionSectors))) ∧
    { SetWPoStChallengeWindow E s W with
        miner0_WPoStChallengeWindow := s.miner0_WPoStChallengeWindow
        miner0_WPoStProvingPeriod := s.miner0_WPoStProvingPeriod
        miner2_WPoStChallengeWindow := s.miner2_WPoStChallengeWindow
        miner2_WPoStProvingPeriod := s.miner2_WPoStProvingPeriod
        miner3_WPoStChallengeWindow := s.miner3_WPoStChallengeWindow
        miner3_WPoStProvingPeriod := s.miner3_WPoStProvingPeriod } = s := by
  refine ⟨rfl, ⟨rfl, rfl, rfl, rfl⟩, ⟨rfl, ?_, ?_⟩, rfl⟩
  · simp only [SetConsensusMinerMinPower, List.map_map]
    rfl
  · simp only [SetConsensusMinerMinPower, List.map_map]
    rfl

end Policy
